import Mathlib

/-!
# pruefungsplaner-auth: startup configuration

A shallow embedding of `src/configuration.h` and `src/configuration.cpp`.

The C++ class `Configuration` is built once at startup.  Its constructor reads
the command line, resolves an RSA key pair on disk (generating what is missing
through `openssl`), loads a TOML file and validates the result.  Every failure
goes through `failConfiguration`, which prints one line and calls `exit(1)`.

The embedding threads an explicit state: the fields of the object under
construction, the file system, and a trace of the operations performed.
`exit(1)` is an outcome that stops the run and keeps the state reached.
-/

set_option linter.dupNamespace false

namespace Auth

/-! ## Users -/

/-- Modelled from the spec: the class `User` of `user.h`, which is not among the
sources.  The spec describes it as a value object built by
`User(name, passwordRecord, claims)`; `getName` returns the name. -/
structure User where
  name : String
  password : String
  claims : List String
  deriving DecidableEq

/-- The accessor `User::getName`. -/
def User.getName (u : User) : String := u.name

/-! ## The object under construction -/

/-- The data members of `Configuration` (`configuration.h`, lines 32-36).
`port` is a `quint16`; it is a natural number here and every assignment that
narrows in C++ reduces modulo `2^16`. -/
structure Configuration where
  address : String
  port : Nat
  privateKey : String
  publicKey : String
  users : List User
  deriving DecidableEq

/-- The loop of `Configuration::getUser` (`configuration.cpp`, lines 121-126)
over the remaining users. -/
def getUserLoop : List User → String → User
  | [], name => User.mk name "" []
  | user :: rest, name => if user.getName = name then user else getUserLoop rest name

/-- The method `Configuration::getUser` (`configuration.cpp`, lines 119-127).
It is a `const` member function returning by value: it has no access to a
mutable `users`, which is why it is a function of the object alone. -/
def Configuration.getUser (c : Configuration) (name : String) : User :=
  getUserLoop c.users name

/-! ## Files, external tools and the trace -/

/-- A file as the program sees it: its text and whether this process may open
it for reading or for writing. -/
structure File where
  content : String
  readable : Bool
  writable : Bool
  deriving DecidableEq

/-- The file system: an association list from path to file, first entry wins. -/
abbrev FS := List (String × File)

/-- The file at a path, if one exists. -/
def FS.find (fs : FS) (path : String) : Option File := fs.lookup path

/-- The file system after the file at `path` has been created or replaced. -/
def FS.put (fs : FS) (path : String) (f : File) : FS := (path, f) :: fs

/-- Modes used with `QFile::open` in the source. -/
inductive OpenMode
  | readOnly
  | writeOnly
  | readOnlyText
  deriving DecidableEq

/-- What the run did, in order.  `enter` records the call of a member function
of `Configuration` with its file-name arguments; the other events are the
operations on the outside world. -/
inductive Event
  | enter (method : String) (arguments : List String)
  | fileExists (path : String)
  | fileOpen (path : String) (mode : OpenMode)
  | readAll (path : String)
  | system (command : String)
  | parseFile (path : String)
  | debug (message : String)
  deriving DecidableEq

/-- One user table of the parsed TOML file: the results of
`get_as<std::string>("username")`, `get_as<std::string>("password")` and
`get_array_of<std::string>("claims")`. -/
structure UserTable where
  username : Option String
  password : Option String
  claims : Option (List String)
  deriving DecidableEq

/-- The parsed TOML file, as far as `loadConfiguration` looks into it: the
values stored under the keys `server.address`, `server.port` (a TOML integer),
`security.privateKey`, `security.publicKey`, and the table array `user`
(`none` for the null pointer `get_table_array` returns when there is none). -/
structure TomlFile where
  address : Option String
  port : Option Int
  privateKey : Option String
  publicKey : Option String
  user : Option (List UserTable)
  deriving DecidableEq

/-- Everything the program takes from outside its own code: the compile-time
paths (`DEFAULT_CONFIG_PATH`, `DEFAULT_KEYS_PATH`), whether a missing file can
be created, the TOML parser, `QHostAddress::setAddress`, the library function
`QString::arg` (template, then argument), and the C function `system`.
`system` hands its command line to `sh`: what the shell and the programs it
starts make of that line is theirs to decide, so it is a function of the whole
line and the file system, giving the status that `system` returns and the file
system afterwards. -/
structure Env where
  defaultConfigPath : String
  defaultKeysPath : String
  canCreate : String → Bool
  parseToml : String → Except String TomlFile
  setAddress : String → Bool
  arg : String → String → String
  system : String → FS → Int × FS

/-- The state of a run: the object under construction, the file system and the
trace so far. -/
structure State where
  self : Configuration
  fs : FS
  log : List Event
  deriving DecidableEq

/-- How a run stops early: `exit(code)` after a line on standard error, or
`std::terminate` through an exception nobody catches. -/
inductive Failure
  | exit (code : Nat) (message : String)
  | terminate (what : String)
  deriving DecidableEq

/-- The result of a step: a value, or the failure that ended the run. -/
inductive Outcome (α : Type)
  | ok (a : α)
  | fail (f : Failure)
  deriving DecidableEq

/-- A step of the run: from a state to an outcome and the state reached. -/
def Run (α : Type) : Type := State → Outcome α × State

/-- Sequencing: a failure stops the run in the state where it happened. -/
def Run.bind {α β : Type} (m : Run α) (f : α → Run β) : Run β :=
  fun s => match m s with
    | (Outcome.ok a, s1) => f a s1
    | (Outcome.fail e, s1) => (Outcome.fail e, s1)

/-- A step that only returns a value. -/
def Run.pure {α : Type} (a : α) : Run α := fun s => (Outcome.ok a, s)

instance : Monad Run where
  pure := Run.pure
  bind := Run.bind

/-! ## Qt strings -/

/-- The predicate `QChar::isSpace`: the ASCII white space, U+0085, U+00A0 and
the Unicode separators. -/
def isSpace (c : Char) : Bool :=
  let u := c.toNat
  u == 0x20 || (0x09 ≤ u && u ≤ 0x0D) || u == 0x85 || u == 0xA0 || u == 0x1680 ||
    (0x2000 ≤ u && u ≤ 0x200A) || u == 0x2028 || u == 0x2029 || u == 0x202F ||
    u == 0x205F || u == 0x3000

/-- The number a run of decimal digits stands for. -/
def decimalValue (ds : List Char) : Nat :=
  ds.foldl (fun v c => 10 * v + (c.toNat - 48)) 0

/-- White space removed at both ends. -/
def trimSpaces (cs : List Char) : List Char :=
  ((cs.dropWhile isSpace).reverse.dropWhile isSpace).reverse

/-- One leading plus sign removed. -/
def stripPlus : List Char → List Char
  | '+' :: rest => rest
  | other => other

/-- The library function `QString::toUInt(&ok)` with its default base 10, in
the C locale: white space at both ends is skipped, one leading `+` is
accepted, what remains must be one or more decimal digits, and the value must
fit an `unsigned int` of 32 bits.  `none` is `ok == false`. -/
def toUInt (s : String) : Option Nat :=
  let digits := stripPlus (trimSpaces s.toList)
  if digits ≠ [] ∧ digits.all Char.isDigit = true then
    if decimalValue digits < 2 ^ 32 then some (decimalValue digits) else none
  else none

/-- The conversion `QString(n)` of an integer `n`.  There is no constructor of
`QString` from a number: the call goes through `QChar(uint)` or `QChar(int)`,
which keep the low 16 bits as one UTF-16 code unit, and gives the string of
that single character.  (A lone surrogate has no counterpart among the
characters of Lean and becomes U+0000 here.) -/
def QString.ofInteger (n : Int) : String :=
  String.singleton (Char.ofNat (n % 65536).toNat)

/-! ## The command line -/

/-- The options after `parser.process(arguments)`: for each option the last
value given for it, `none` when the option does not occur. -/
structure CommandLine where
  config : Option String
  port : Option String
  address : Option String
  privateKey : Option String
  publicKey : Option String
  deriving DecidableEq

/-- The library function `QCommandLineParser::value`: the value of the option,
or the empty string when the option was not given. -/
def CommandLine.value (o : Option String) : String := o.getD ""

/-! ## Primitive steps -/

/-- Append an event to the trace. -/
def record (e : Event) : Run Unit :=
  fun s => (Outcome.ok (), { s with log := s.log ++ [e] })

/-- Read the state. -/
def getState : Run State := fun s => (Outcome.ok s, s)

/-- Assign to data members of the object. -/
def modifySelf (f : Configuration → Configuration) : Run Unit :=
  fun s => (Outcome.ok (), { s with self := f s.self })

/-- The library function `QFile::exists`. -/
def fileExists (path : String) : Run Bool :=
  fun s => (Outcome.ok (s.fs.find path).isSome, { s with log := s.log ++ [Event.fileExists path] })

/-- The text of the file at a path; empty when there is none. -/
def FS.text (fs : FS) (path : String) : String :=
  match fs.find path with
  | some f => f.content
  | none => ""

/-- Whether the file at a path exists and may be opened for reading. -/
def FS.readable (fs : FS) (path : String) : Bool :=
  match fs.find path with
  | some f => f.readable
  | none => false

/-- The file system after `open(QIODevice::WriteOnly)` on a path, `none` when the
call fails: a writable file is truncated, a missing file is created where the
environment allows it. -/
def FS.openWrite (env : Env) (fs : FS) (path : String) : Option FS :=
  match fs.find path with
  | some f => if f.writable then some (fs.put path { f with content := "" }) else none
  | none => if env.canCreate path then some (fs.put path ⟨"", true, true⟩) else none

/-- The file system after a program has written `text` to the file at `path`:
an existing file keeps its permissions, a missing one is created. -/
def FS.write (fs : FS) (path : String) (text : String) : FS :=
  match fs.find path with
  | some f => fs.put path { f with content := text }
  | none => fs.put path ⟨text, true, true⟩

/-- The library function `QFile::open`, which the source always follows by
`close`, or by `readAll` and `close`.  The result tells whether the file
could be opened. -/
def fileOpen (env : Env) (path : String) (mode : OpenMode) : Run Bool :=
  fun s =>
    match mode with
    | OpenMode.writeOnly =>
        match FS.openWrite env s.fs path with
        | some fs1 =>
            (Outcome.ok true, { s with fs := fs1, log := s.log ++ [Event.fileOpen path mode] })
        | none => (Outcome.ok false, { s with log := s.log ++ [Event.fileOpen path mode] })
    | _ =>
        (Outcome.ok (s.fs.readable path),
          { s with log := s.log ++ [Event.fileOpen path mode] })

/-- The call `QTextStream(&file).readAll()` on a file just opened for reading. -/
def readAll (path : String) : Run String :=
  fun s => (Outcome.ok (s.fs.text path), { s with log := s.log ++ [Event.readAll path] })

/-- The method `Configuration::failConfiguration` (`configuration.cpp`, lines
323-327): the message goes to standard error and the process exits with 1. -/
def Configuration.failConfiguration (message : String) : Run Unit :=
  fun s => (Outcome.fail (Failure.exit 1 message), s)

/-- The method `Configuration::warnConfiguration` (`configuration.cpp`, lines
329-332): the message goes to `qDebug()`. -/
def Configuration.warnConfiguration (message : String) : Run Unit :=
  record (Event.debug message)

/-! ## The external tools -/

/-- The C string behind `command.toUtf8()`: it ends before the first NUL. -/
def cString (command : String) : String :=
  String.mk (command.toList.takeWhile (fun c => c ≠ Char.ofNat 0))

/-- The call `system(command.toUtf8())`.  The trace keeps the command line as
the shell receives it. -/
def system (env : Env) (command : String) : Run Int :=
  fun s => (Outcome.ok (env.system (cString command) s.fs).1,
    { s with
      fs := (env.system (cString command) s.fs).2
      log := s.log ++ [Event.system (cString command)] })

/-! ## Key material (`configuration.cpp`, lines 187-321) -/

/-- The method `Configuration::generatePrivateKey` (lines 216-236). -/
def Configuration.generatePrivateKey (env : Env) (privateKeyFile : String) : Run Unit := do
  record (Event.enter "generatePrivateKey" [privateKeyFile])
  if (← fileExists privateKeyFile) then
    failConfiguration ("Cannot generate new private key, because the file " ++
      privateKeyFile ++ " already exists.")
  if (← fileOpen env privateKeyFile OpenMode.writeOnly) then
    pure ()
  else
    failConfiguration ("Failed to generate private key, because the file " ++
      privateKeyFile ++ " cannot be created.")
  let generatePrivateKeyCommand :=
    env.arg "openssl genpkey -algorithm RSA -out %1 -pkeyopt rsa_keygen_bits:2048"
      privateKeyFile
  let result ← system env generatePrivateKeyCommand
  if result ≠ 0 then
    failConfiguration ("Failed to generate private key (Code " ++
      QString.ofInteger result ++ ").")

/-- The method `Configuration::generatePublicKey` (lines 238-264). -/
def Configuration.generatePublicKey (env : Env) (privateKeyFile publicKeyFile : String) :
    Run Unit := do
  record (Event.enter "generatePublicKey" [privateKeyFile, publicKeyFile])
  if !(← fileExists privateKeyFile) then
    failConfiguration "Cannot generate new public key, because there is no private key specified."
  if (← fileOpen env privateKeyFile OpenMode.readOnly) then
    pure ()
  else
    failConfiguration ("Failed to generate public key, because the private key file " ++
      publicKeyFile ++ " cannot be opened.")
  if (← fileOpen env publicKeyFile OpenMode.writeOnly) then
    pure ()
  else
    failConfiguration ("Failed to generate public key, because the file " ++
      publicKeyFile ++ " cannot be created.")
  let generatePublicKeyCommand :=
    env.arg (env.arg "openssl rsa -pubout -in %1 -out %2" privateKeyFile) publicKeyFile
  let result ← system env generatePublicKeyCommand
  if result ≠ 0 then
    failConfiguration ("Failed to generate public key (Code " ++
      QString.ofInteger result ++ ").")

/-- The method `Configuration::checkPrivateKey` (lines 266-287).  Its first
statement closes the file object, which no step leaves open. -/
def Configuration.checkPrivateKey (env : Env) (privateKeyFile : String) : Run Unit := do
  record (Event.enter "checkPrivateKey" [privateKeyFile])
  if !(← fileExists privateKeyFile) then
    failConfiguration ("Private key file does not exist " ++ privateKeyFile ++ ".")
  if (← fileOpen env privateKeyFile OpenMode.readOnly) then
    pure ()
  else
    failConfiguration ("Private key file " ++ privateKeyFile ++ " cannot be read.")
  let checkPrivateKeyCommand :=
    env.arg "openssl rsa -in %1 -check -noout >/dev/null 2>&1" privateKeyFile
  let result ← system env checkPrivateKeyCommand
  if result ≠ 0 then
    failConfiguration ("Private key file is invalid (Code " ++ QString.ofInteger result ++ ").")

/-- The method `Configuration::checkPublicKey` (lines 289-309). -/
def Configuration.checkPublicKey (env : Env) (publicKeyFile : String) : Run Unit := do
  record (Event.enter "checkPublicKey" [publicKeyFile])
  if !(← fileExists publicKeyFile) then
    failConfiguration ("Public key file does not exist " ++ publicKeyFile ++ ".")
  if (← fileOpen env publicKeyFile OpenMode.readOnly) then
    pure ()
  else
    failConfiguration ("Private key file " ++ publicKeyFile ++ " cannot be read.")
  let checkPublicKeyCommand :=
    env.arg "openssl pkey -inform PEM -pubin -in %1 -noout >/dev/null 2>&1" publicKeyFile
  let result ← system env checkPublicKeyCommand
  if result ≠ 0 then
    failConfiguration ("Public key file is invalid (Code " ++ QString.ofInteger result ++ ").")

/-- The method `Configuration::checkKeysAreMatching` (lines 311-321). -/
def Configuration.checkKeysAreMatching (env : Env) (privateKeyFile publicKeyFile : String) :
    Run Unit := do
  record (Event.enter "checkKeysAreMatching" [privateKeyFile, publicKeyFile])
  let checkKeysCommand :=
    env.arg (env.arg
      ("test \"$(openssl rsa -in '%1' -outform PEM -pubout 2>/dev/null)\" = " ++
        "\"$(openssl pkey -inform PEM -pubin -in '%2' 2>/dev/null)\" >/dev/null 2>&1")
      privateKeyFile) publicKeyFile
  let result ← system env checkKeysCommand
  if result ≠ 0 then
    failConfiguration "The public key seems not to belong to the private key."

/-- The method `Configuration::readKeys` (lines 187-214). -/
def Configuration.readKeys (env : Env) (privateKeyFile publicKeyFile : String) : Run Unit := do
  record (Event.enter "readKeys" [privateKeyFile, publicKeyFile])
  if !(← fileExists privateKeyFile) then
    generatePrivateKey env privateKeyFile
  checkPrivateKey env privateKeyFile
  if !(← fileExists publicKeyFile) then
    generatePublicKey env privateKeyFile publicKeyFile
  checkPublicKey env publicKeyFile
  checkKeysAreMatching env privateKeyFile publicKeyFile
  if (← fileOpen env privateKeyFile OpenMode.readOnlyText) then
    let text ← readAll privateKeyFile
    modifySelf (fun c => { c with privateKey := text })
  else
    failConfiguration ("Failed to read private key from " ++ privateKeyFile)
  if (← fileOpen env publicKeyFile OpenMode.readOnlyText) then
    let text ← readAll publicKeyFile
    modifySelf (fun c => { c with publicKey := text })
  else
    failConfiguration ("Failed to read public key from " ++ publicKeyFile)

/-! ## The configuration file (`configuration.cpp`, lines 129-185) -/

/-- The constant `defaultAddress` (`configuration.h`, line 28). -/
def defaultAddress : String := "0.0.0.0"

/-- The constant `defaultPort` (`configuration.h`, line 29). -/
def defaultPort : Nat := 80

/-- The constant `defaultConfigurationFiles` (`configuration.h`, line 27). -/
def defaultConfigurationFiles (env : Env) : List String :=
  [env.defaultConfigPath ++ "/config.toml", "/dev/null"]

/-- The constant `defaultPrivateKey` (`configuration.h`, line 30). -/
def defaultPrivateKey (env : Env) : String := env.defaultKeysPath ++ "/private_key.pem"

/-- The constant `defaultPublicKey` (`configuration.h`, line 31). -/
def defaultPublicKey (env : Env) : String := env.defaultKeysPath ++ "/public_key.pem"

/-- The library function `cpptoml::parse_file`: a `parse_exception` (here
`Except.error` with its `what()`) when the file cannot be opened or is not
valid TOML. -/
def parseFile (env : Env) (path : String) : Run (Except String TomlFile) :=
  fun s => (Outcome.ok (match s.fs.find path with
      | some f =>
          if f.readable then env.parseToml f.content
          else Except.error (path ++ " could not be opened for parsing")
      | none => Except.error (path ++ " could not be opened for parsing")),
    { s with log := s.log ++ [Event.parseFile path] })

/-- The expression `config->get_as<uint16_t>("server.port").value_or(defaultPort)`
(line 134).  For an integer that does not fit, `get_as` throws
`std::underflow_error` or `std::overflow_error`; `loadConfiguration` catches
`parse_exception` only, so the process terminates. -/
def getPort (config : TomlFile) : Run Nat :=
  match config.port with
  | none => pure (defaultPort % 65536)
  | some v =>
      if v < 0 then
        fun s => (Outcome.fail (Failure.terminate "T cannot store negative value in get"), s)
      else if v > 65535 then
        fun s => (Outcome.fail
          (Failure.terminate "T cannot represent the value requested in get"), s)
      else pure v.toNat

/-- The loop over the `user` tables (lines 153-178). -/
def Configuration.loadUsers (file : String) : List UserTable → Run Unit
  | [] => pure ()
  | userTable :: rest => do
      if userTable.username.isNone then
        failConfiguration ("Missing username in configuration file " ++ file ++ ".")
      let username := userTable.username.getD ""
      if userTable.password.isNone then
        failConfiguration ("Missing password for user " ++ username ++
          " in configuration file " ++ file ++ ".")
      let password := userTable.password.getD ""
      let claims := userTable.claims.getD []
      modifySelf (fun c => { c with users := c.users ++ [User.mk username password claims] })
      loadUsers file rest

/-- The method `Configuration::loadConfiguration` (lines 129-185). -/
def Configuration.loadConfiguration (env : Env) (file : String) : Run Unit := do
  record (Event.enter "loadConfiguration" [file])
  match (← parseFile env file) with
  | Except.error what =>
      failConfiguration ("Parsing error in " ++ file ++ " :\n" ++ what)
  | Except.ok config =>
      let parseAddress := config.address.getD defaultAddress
      let parsePort ← getPort config
      let parsePrivateKey := config.privateKey.getD (defaultPrivateKey env)
      let parsePublicKey := config.publicKey.getD (defaultPublicKey env)
      if (← getState).self.address = "" then
        modifySelf (fun c => { c with address := parseAddress })
      if (← getState).self.port = 0 then
        modifySelf (fun c => { c with port := parsePort })
      if (← getState).self.privateKey = "" ∧ (← getState).self.publicKey = "" then
        readKeys env parsePrivateKey parsePublicKey
      match config.user with
      | none => pure ()
      | some userTableArray => loadUsers file userTableArray

/-! ## Final validation (`configuration.cpp`, lines 334-356) -/

/-- The method `Configuration::checkConfiguration` (lines 334-356). -/
def Configuration.checkConfiguration (env : Env) : Run Unit := do
  if (← getState).self.port = 0 then
    failConfiguration "You specified the only invalid port, which is 0."
  if !env.setAddress (← getState).self.address then
    failConfiguration ("The address " ++ (← getState).self.address ++ " seems to be invalid.")
  if (← getState).self.privateKey = "" then
    failConfiguration "No private key specified."
  if (← getState).self.publicKey = "" then
    failConfiguration "No public key specified."
  if (← getState).self.users.length = 0 then
    warnConfiguration "There are no users in your configuration."

/-! ## The constructor (`configuration.cpp`, lines 3-97) -/

/-- Lines 37-52: the address option is stored, the port option is validated. -/
def Configuration.addressAndPortOptions (parser : CommandLine) : Run Unit := do
  modifySelf (fun c => { c with address := CommandLine.value parser.address })
  let portString := CommandLine.value parser.port
  if portString ≠ "" then
    match toUInt portString with
    | none => failConfiguration ("Port " ++ portString ++ " is not a number.")
    | some portInt =>
        if portInt > 0 ∧ portInt ≤ 65535 then
          modifySelf (fun c => { c with port := portInt % 65536 })
        else
          failConfiguration ("Port " ++ QString.ofInteger portInt ++
            " is out of range (1-65535).")

/-- Lines 54-66: the two key options must come together; when both are given
the keys are resolved at once. -/
def Configuration.keyOptions (env : Env) (parser : CommandLine) : Run Unit := do
  let privateKeyFileString := CommandLine.value parser.privateKey
  let publicKeyFileString := CommandLine.value parser.publicKey
  if privateKeyFileString = "" ∧ publicKeyFileString ≠ "" then
    failConfiguration
      "If you specify a private key file, you also have to specify a public key file"
  if privateKeyFileString ≠ "" ∧ publicKeyFileString = "" then
    failConfiguration
      "If you specify a public key file, you also have to specify a private key file"
  if privateKeyFileString ≠ "" ∧ publicKeyFileString ≠ "" then
    readKeys env privateKeyFileString publicKeyFileString

/-- Lines 70-78: the first default configuration file that exists is loaded. -/
def Configuration.loadFirstDefault (env : Env) : List String → Run Bool
  | [] => pure false
  | configFilePath :: rest => do
      if (← fileExists configFilePath) then
        loadConfiguration env configFilePath
        pure true
      else
        loadFirstDefault env rest

/-- Lines 80-89: the part of the message that lists the default files. -/
def defaultConfigFilesMessage (files : List String) : String :=
  if files.length > 0 then
    files.dropLast.foldl (fun m f => m ++ f ++ ", ") "create one at " ++
      files.getLastD "" ++ " or"
  else ""

/-- Lines 68-94: the configuration file is chosen and loaded. -/
def Configuration.configOption (env : Env) (parser : CommandLine) : Run Unit := do
  let parsedConfigurationFile := CommandLine.value parser.config
  if parsedConfigurationFile = "" then
    let found ← loadFirstDefault env (defaultConfigurationFiles env)
    if !found then
      failConfiguration ("No valid configuration file found. You can " ++
        defaultConfigFilesMessage (defaultConfigurationFiles env) ++
        " specify your configuration with the --config option.")
  else
    loadConfiguration env parsedConfigurationFile

/-- The constructor `Configuration::Configuration` (lines 3-97), after
`parser.process(arguments)`.  The member initialisers come first. -/
def Configuration.Configuration (env : Env) (parser : CommandLine) : Run Unit := do
  modifySelf (fun _ => ⟨"", 0, "", "", []⟩)
  addressAndPortOptions parser
  keyOptions env parser
  configOption env parser
  checkConfiguration env

/-- The state in which the constructor starts on a file system: nothing has
been done yet. -/
def State.start (fs : FS) : State := ⟨⟨"", 0, "", "", []⟩, fs, []⟩

/-! ## A concrete environment

A small stand-in for the outside world, on which the definitions can be run:
two key pairs `A` and `B`, three configuration texts, `QString::arg` on ASCII
place markers, and a table of what `sh` and `openssl` do with the command
lines that occur in the runs below. -/

/-- The scanner of `QString::arg` between characters: in plain text, after
`%`, after `%L`, or after the first digit of a place marker. -/
inductive ArgScan
  | plain
  | percent
  | percentL
  | digit (raw : List Char) (n : Nat)

/-- A piece of a template: one run of text, or a place marker with its number
and its spelling. -/
inductive ArgPiece
  | text (cs : List Char)
  | marker (n : Nat) (raw : List Char)

/-- The value of an ASCII digit. -/
def asciiDigit (c : Char) : Option Nat :=
  if c.isDigit then some (c.toNat - 48) else none

/-- One character of the scan; the pieces found so far are kept in reverse. -/
def argStep : ArgScan × List ArgPiece → Char → ArgScan × List ArgPiece
  | (ArgScan.plain, out), c =>
      if c = '%' then (ArgScan.percent, out) else (ArgScan.plain, ArgPiece.text [c] :: out)
  | (ArgScan.percent, out), c =>
      if c = 'L' then (ArgScan.percentL, out)
      else match asciiDigit c with
        | some d => (ArgScan.digit ['%', c] d, out)
        | none =>
            if c = '%' then (ArgScan.percent, ArgPiece.text ['%'] :: out)
            else (ArgScan.plain, ArgPiece.text ['%', c] :: out)
  | (ArgScan.percentL, out), c =>
      match asciiDigit c with
      | some d => (ArgScan.digit ['%', 'L', c] d, out)
      | none =>
          if c = '%' then (ArgScan.percent, ArgPiece.text ['%', 'L'] :: out)
          else (ArgScan.plain, ArgPiece.text ['%', 'L', c] :: out)
  | (ArgScan.digit raw n, out), c =>
      match asciiDigit c with
      | some d => (ArgScan.plain, ArgPiece.marker (10 * n + d) (raw ++ [c]) :: out)
      | none =>
          if c = '%' then (ArgScan.percent, ArgPiece.marker n raw :: out)
          else (ArgScan.plain, ArgPiece.text [c] :: ArgPiece.marker n raw :: out)

/-- The pieces of a template, in order, once the scan has reached its end. -/
def argPieces (template : List Char) : List ArgPiece :=
  match template.foldl argStep (ArgScan.plain, []) with
  | (ArgScan.plain, out) => out.reverse
  | (ArgScan.percent, out) => (ArgPiece.text ['%'] :: out).reverse
  | (ArgScan.percentL, out) => (ArgPiece.text ['%', 'L'] :: out).reverse
  | (ArgScan.digit raw n, out) => (ArgPiece.marker n raw :: out).reverse

/-- The lowest number among the place markers, if there is a marker. -/
def lowestMarker (pieces : List ArgPiece) : Option Nat :=
  pieces.foldl (fun acc p => match p, acc with
    | ArgPiece.marker n _, none => some n
    | ArgPiece.marker n _, some m => some (min m n)
    | ArgPiece.text _, _ => acc) none

/-- The library function `QString::arg(const QString &)` for templates whose
place markers are written with ASCII digits: every occurrence of the marker
with the lowest number is replaced by the argument; a template without a
marker is returned as it is. -/
def sampleArg (template a : String) : String :=
  match lowestMarker (argPieces template.toList) with
  | none => template
  | some m =>
      String.mk ((argPieces template.toList).foldr (fun p rest => match p with
        | ArgPiece.text cs => cs ++ rest
        | ArgPiece.marker n raw => if n = m then a.toList ++ rest else raw ++ rest) [])

/-- What `openssl rsa -pubout` prints for the text of a private key file: the
public key of the pair, nothing for a text that is not a private key. -/
def samplePublicOf (text : String) : String :=
  if text = "PRIVATE A" then "PUBLIC A"
  else if text = "PRIVATE B" then "PUBLIC B"
  else ""

/-- What `openssl pkey -pubin` prints for the text of a public key file: the
text itself, nothing for a text that is not a public key. -/
def samplePublicText (text : String) : String :=
  if text = "PUBLIC A" ∨ text = "PUBLIC B" then text else ""

/-- The check `openssl rsa -in file -check -noout`.  Exit status 1 reaches the
caller of `system` as 256. -/
def sampleCheckPrivate (file : String) (fs : FS) : Int × FS :=
  (if samplePublicOf (fs.text file) = "" then 256 else 0, fs)

/-- The check `openssl pkey -inform PEM -pubin -in file -noout`. -/
def sampleCheckPublic (file : String) (fs : FS) : Int × FS :=
  (if samplePublicText (fs.text file) = "" then 256 else 0, fs)

/-- The comparison `test "$(openssl rsa -in priv -outform PEM -pubout)" =
"$(openssl pkey -inform PEM -pubin -in pub)"` of what the two programs print. -/
def sampleKeysMatch (priv pub : String) (fs : FS) : Int × FS :=
  (if samplePublicOf (fs.text priv) = samplePublicText (fs.text pub) then 0 else 256, fs)

/-- The derivation `openssl rsa -pubout -in priv -out pub`. -/
def samplePubout (priv pub : String) (fs : FS) : Int × FS :=
  if samplePublicOf (fs.text priv) = "" then (256, fs)
  else (0, fs.write pub (samplePublicOf (fs.text priv)))

/-- The command lines of the runs below, each with what `sh` and `openssl` make
of it.  In the first seven the file names are plain.  In the others the shell
reads the unquoted name as more than a name: `my keys/b.pem` is two words, and
`openssl rsa` refuses the extra argument; `a.pem -noout` is the file `a.pem`
and one more option; `o>b.pem` is the file `o` and a redirection of the output
to `b.pem`, which the shell truncates before `openssl` starts.  Between single
quotes, in the comparison, `a.pem -noout` is one file name. -/
def sampleCommands : List (String × (FS → Int × FS)) :=
  [("openssl rsa -in /usr/share/pruefungsplaner-auth/keys/private_key.pem -check -noout " ++
      ">/dev/null 2>&1",
    sampleCheckPrivate "/usr/share/pruefungsplaner-auth/keys/private_key.pem"),
   ("openssl pkey -inform PEM -pubin -in /usr/share/pruefungsplaner-auth/keys/public_key.pem " ++
      "-noout >/dev/null 2>&1",
    sampleCheckPublic "/usr/share/pruefungsplaner-auth/keys/public_key.pem"),
   ("test \"$(openssl rsa -in '/usr/share/pruefungsplaner-auth/keys/private_key.pem' " ++
      "-outform PEM -pubout 2>/dev/null)\" = \"$(openssl pkey -inform PEM -pubin -in " ++
      "'/usr/share/pruefungsplaner-auth/keys/public_key.pem' 2>/dev/null)\" >/dev/null 2>&1",
    sampleKeysMatch "/usr/share/pruefungsplaner-auth/keys/private_key.pem"
      "/usr/share/pruefungsplaner-auth/keys/public_key.pem"),
   ("openssl rsa -in /keys/b.pem -check -noout >/dev/null 2>&1",
    sampleCheckPrivate "/keys/b.pem"),
   ("openssl pkey -inform PEM -pubin -in /keys/b.pub -noout >/dev/null 2>&1",
    sampleCheckPublic "/keys/b.pub"),
   ("test \"$(openssl rsa -in '/keys/b.pem' -outform PEM -pubout 2>/dev/null)\" = " ++
      "\"$(openssl pkey -inform PEM -pubin -in '/keys/b.pub' 2>/dev/null)\" >/dev/null 2>&1",
    sampleKeysMatch "/keys/b.pem" "/keys/b.pub"),
   ("test \"$(openssl rsa -in '/keys/b.pem' -outform PEM -pubout 2>/dev/null)\" = " ++
      "\"$(openssl pkey -inform PEM -pubin -in " ++
      "'/usr/share/pruefungsplaner-auth/keys/public_key.pem' 2>/dev/null)\" >/dev/null 2>&1",
    sampleKeysMatch "/keys/b.pem" "/usr/share/pruefungsplaner-auth/keys/public_key.pem"),
   ("openssl rsa -in my keys/b.pem -check -noout >/dev/null 2>&1",
    fun fs => (256, fs)),
   ("openssl rsa -in a.pem -noout -check -noout >/dev/null 2>&1",
    sampleCheckPrivate "a.pem"),
   ("openssl pkey -inform PEM -pubin -in a.pub -noout -noout >/dev/null 2>&1",
    sampleCheckPublic "a.pub"),
   ("test \"$(openssl rsa -in 'a.pem -noout' -outform PEM -pubout 2>/dev/null)\" = " ++
      "\"$(openssl pkey -inform PEM -pubin -in 'a.pub -noout' 2>/dev/null)\" >/dev/null 2>&1",
    sampleKeysMatch "a.pem -noout" "a.pub -noout"),
   ("openssl rsa -in b.pem -check -noout >/dev/null 2>&1",
    sampleCheckPrivate "b.pem"),
   ("openssl rsa -pubout -in b.pem -out o>b.pem",
    fun fs => samplePubout "b.pem" "o" (fs.write "b.pem" ""))]

/-- The sample environment.  The compile-time paths are those of
`configuration.h`; a command line that is not in the table fails. -/
def sampleEnv : Env where
  defaultConfigPath := "/etc/pruefungsplaner-auth"
  defaultKeysPath := "/usr/share/pruefungsplaner-auth/keys"
  canCreate := fun _ => true
  parseToml := fun text =>
    if text = "" then Except.ok ⟨none, none, none, none, none⟩
    else if text = "full" then
      Except.ok ⟨some "127.0.0.1", some 8080, some "/keys/b.pem", some "/keys/b.pub",
        some [⟨some "alice", some "secret", some ["admin"]⟩, ⟨some "bob", some "hash", none⟩]⟩
    else if text = "nousers" then
      Except.ok ⟨some "127.0.0.1", some 8080, none, none, some []⟩
    else Except.error "malformed file"
  setAddress := fun a => a = "0.0.0.0" || a = "127.0.0.1" || a = "::1"
  arg := sampleArg
  system := fun command fs =>
    match sampleCommands.lookup command with
    | some run => run fs
    | none => (256, fs)

/-- A file system with the default configuration file (empty), a full
configuration file, and the key pairs `A` (at the default key paths) and `B`. -/
def sampleFS : FS :=
  [("/etc/pruefungsplaner-auth/config.toml", ⟨"", true, true⟩),
   ("/etc/auth/full.toml", ⟨"full", true, true⟩),
   ("/usr/share/pruefungsplaner-auth/keys/private_key.pem", ⟨"PRIVATE A", true, true⟩),
   ("/usr/share/pruefungsplaner-auth/keys/public_key.pem", ⟨"PUBLIC A", true, true⟩),
   ("/keys/b.pem", ⟨"PRIVATE B", true, true⟩),
   ("/keys/b.pub", ⟨"PUBLIC B", true, true⟩)]

/-- The sample file system with four more files in the working directory: the
key pair `B` as `a.pem` and `a.pub`, and two empty files whose names are
`a.pem -noout` and `a.pub -noout`. -/
def optionNameFS : FS :=
  [("a.pem", ⟨"PRIVATE B", true, true⟩),
   ("a.pub", ⟨"PUBLIC B", true, true⟩),
   ("a.pem -noout", ⟨"", true, true⟩),
   ("a.pub -noout", ⟨"", true, true⟩)] ++ sampleFS

/-- A directory `my keys` with the private key of pair `B` and the public key
of pair `A`: two valid key files that do not match. -/
def blankNameFS : FS :=
  [("my keys/b.pem", ⟨"PRIVATE B", true, true⟩),
   ("my keys/a.pub", ⟨"PUBLIC A", true, true⟩)]

/-- A working directory with the private key of pair `A` as `b.pem`. -/
def redirectFS : FS :=
  [("b.pem", ⟨"PRIVATE A", true, true⟩)]

/-! ## Reasoning about runs -/

/-- The argument lists of the calls of a member function that a trace records,
in order. -/
def calls (method : String) (log : List Event) : List (List String) :=
  log.filterMap (fun e => match e with
    | Event.enter m arguments => if m = method then some arguments else none
    | _ => none)


/-- The condition under which a step started in `s` ends well: with a value and
state accepted by `Q` when it returns, with a failure and state accepted by `E`
when it stops the run. -/
def wp {α : Type} (m : Run α) (Q : α → State → Prop) (E : Failure → State → Prop)
    (s : State) : Prop :=
  match m s with
  | (Outcome.ok a, s1) => Q a s1
  | (Outcome.fail e, s1) => E e s1

/-! # Theorems -/

open Configuration

theorem Run.bind_apply {α β : Type} (m : Run α) (f : α → Run β) (s : State) :
    (m >>= f) s = Run.bind m f s := rfl

theorem Run.pure_apply {α : Type} (a : α) (s : State) :
    (Pure.pure a : Run α) s = (Outcome.ok a, s) := rfl

/-! ## Rules for `wp` -/

theorem wp_bind {α β : Type} (m : Run α) (f : α → Run β) (Q : β → State → Prop)
    (E : Failure → State → Prop) (s : State) :
    wp (m >>= f) Q E s ↔ wp m (fun a s1 => wp (f a) Q E s1) E s := by
  unfold wp
  simp only [Run.bind_apply, Run.bind]
  rcases h : m s with ⟨o, s1⟩
  cases o <;> simp

theorem wp_pure {α : Type} (a : α) (Q : α → State → Prop) (E : Failure → State → Prop)
    (s : State) : wp (pure a) Q E s ↔ Q a s := Iff.rfl

theorem wp_ite {α : Type} (c : Prop) [Decidable c] (m1 m2 : Run α) (Q : α → State → Prop)
    (E : Failure → State → Prop) (s : State) :
    wp (if c then m1 else m2) Q E s ↔ (c → wp m1 Q E s) ∧ (¬ c → wp m2 Q E s) := by
  by_cases h : c <;> simp [h]

theorem wp_mono {α : Type} {m : Run α} {Q1 Q2 : α → State → Prop}
    {E1 E2 : Failure → State → Prop} {s : State} (h : wp m Q1 E1 s)
    (hq : ∀ a s1, Q1 a s1 → Q2 a s1) (he : ∀ e s1, E1 e s1 → E2 e s1) : wp m Q2 E2 s := by
  unfold wp at *
  rcases hm : m s with ⟨o, s1⟩
  rw [hm] at h
  cases o with
  | ok a => exact hq a s1 h
  | fail e => exact he e s1 h

theorem wp_of_run {α : Type} {m : Run α} {Q : α → State → Prop}
    {E : Failure → State → Prop} {s s1 : State} {a : α}
    (h : wp m Q E s) (hrun : m s = (Outcome.ok a, s1)) : Q a s1 := by
  unfold wp at h; rw [hrun] at h; exact h

theorem wp_record (e : Event) (Q : Unit → State → Prop) (E : Failure → State → Prop)
    (s : State) : wp (record e) Q E s ↔ Q () { s with log := s.log ++ [e] } := Iff.rfl

theorem wp_getState (Q : State → State → Prop) (E : Failure → State → Prop) (s : State) :
    wp getState Q E s ↔ Q s s := Iff.rfl

theorem wp_modifySelf (f : Configuration → Configuration) (Q : Unit → State → Prop)
    (E : Failure → State → Prop) (s : State) :
    wp (modifySelf f) Q E s ↔ Q () { s with self := f s.self } := Iff.rfl

theorem wp_failConfiguration (message : String) (Q : Unit → State → Prop)
    (E : Failure → State → Prop) (s : State) :
    wp (failConfiguration message) Q E s ↔ E (Failure.exit 1 message) s := Iff.rfl

theorem wp_warnConfiguration (message : String) (Q : Unit → State → Prop)
    (E : Failure → State → Prop) (s : State) :
    wp (warnConfiguration message) Q E s ↔
      Q () { s with log := s.log ++ [Event.debug message] } := Iff.rfl

theorem wp_fileExists (path : String) (Q : Bool → State → Prop) (E : Failure → State → Prop)
    (s : State) :
    wp (fileExists path) Q E s ↔
      Q (s.fs.find path).isSome { s with log := s.log ++ [Event.fileExists path] } := Iff.rfl

theorem wp_readAll (path : String) (Q : String → State → Prop) (E : Failure → State → Prop)
    (s : State) :
    wp (readAll path) Q E s ↔
      Q (s.fs.text path) { s with log := s.log ++ [Event.readAll path] } := Iff.rfl


theorem wp_fileOpen_readOnly (env : Env) (path : String) (Q : Bool → State → Prop)
    (E : Failure → State → Prop) (s : State) :
    wp (fileOpen env path OpenMode.readOnly) Q E s ↔
      Q (s.fs.readable path)
        { s with log := s.log ++ [Event.fileOpen path OpenMode.readOnly] } := Iff.rfl

theorem wp_fileOpen_readOnlyText (env : Env) (path : String) (Q : Bool → State → Prop)
    (E : Failure → State → Prop) (s : State) :
    wp (fileOpen env path OpenMode.readOnlyText) Q E s ↔
      Q (s.fs.readable path)
        { s with log := s.log ++ [Event.fileOpen path OpenMode.readOnlyText] } := Iff.rfl

theorem wp_fileOpen_writeOnly (env : Env) (path : String) (Q : Bool → State → Prop)
    (E : Failure → State → Prop) (s : State) :
    wp (fileOpen env path OpenMode.writeOnly) Q E s ↔
      (∀ f, s.fs.find path = some f → f.writable = true →
        Q true { s with
          fs := s.fs.put path { f with content := "" }
          log := s.log ++ [Event.fileOpen path OpenMode.writeOnly] }) ∧
      (∀ f, s.fs.find path = some f → f.writable = false →
        Q false { s with log := s.log ++ [Event.fileOpen path OpenMode.writeOnly] }) ∧
      (s.fs.find path = none → env.canCreate path = true →
        Q true { s with
          fs := s.fs.put path ⟨"", true, true⟩
          log := s.log ++ [Event.fileOpen path OpenMode.writeOnly] }) ∧
      (s.fs.find path = none → env.canCreate path = false →
        Q false { s with log := s.log ++ [Event.fileOpen path OpenMode.writeOnly] }) := by
  unfold wp fileOpen FS.openWrite
  cases h : s.fs.find path with
  | none => cases hc : env.canCreate path <;> simp
  | some f => cases hw : f.writable <;> simp [hw]

theorem wp_system (env : Env) (command : String) (Q : Int → State → Prop)
    (E : Failure → State → Prop) (s : State) :
    wp (system env command) Q E s ↔
      Q (env.system (cString command) s.fs).1
        { s with
          fs := (env.system (cString command) s.fs).2
          log := s.log ++ [Event.system (cString command)] } := Iff.rfl

theorem wp_parseFile (env : Env) (path : String) (Q : Except String TomlFile → State → Prop)
    (E : Failure → State → Prop) (s : State) :
    wp (parseFile env path) Q E s ↔
      Q (match s.fs.find path with
          | some f =>
              if f.readable then env.parseToml f.content
              else Except.error (path ++ " could not be opened for parsing")
          | none => Except.error (path ++ " could not be opened for parsing"))
        { s with log := s.log ++ [Event.parseFile path] } := Iff.rfl

theorem wp_getPort (config : TomlFile) (Q : Nat → State → Prop)
    (E : Failure → State → Prop) (s : State) :
    wp (getPort config) Q E s ↔
      (config.port = none → Q 80 s) ∧
      (∀ v : Int, config.port = some v → 0 ≤ v → v ≤ 65535 → Q v.toNat s) ∧
      (∀ v : Int, config.port = some v → v < 0 →
        E (Failure.terminate "T cannot store negative value in get") s) ∧
      (∀ v : Int, config.port = some v → 65535 < v →
        E (Failure.terminate "T cannot represent the value requested in get") s) := by
  unfold getPort
  cases h : config.port with
  | none => simp [wp_pure, defaultPort]
  | some v =>
    by_cases h1 : v < 0
    · simp only [h1, if_true, Option.some.injEq, forall_eq']
      simp [wp, h1]
      intro h2; omega
    · by_cases h2 : v > 65535
      · simp only [h1, h2, if_true, if_false, Option.some.injEq, forall_eq']
        simp [wp, h1, h2]
      · simp only [h1, h2, if_false, Option.some.injEq, forall_eq']
        simp [wp_pure, h1, h2]
        constructor
        · intro hq _ _; exact hq
        · intro hq; exact hq (by omega) (by omega)

/-! ## Traces -/

theorem calls_append (method : String) (l1 l2 : List Event) :
    calls method (l1 ++ l2) = calls method l1 ++ calls method l2 := by
  simp [calls, List.filterMap_append]

/-! ## Key material -/

/-- The steps of `readKeys` leave the address, the port and the users alone. -/
theorem readKeys_self_frame (env : Env) (priv pub : String) (s : State) :
    wp (readKeys env priv pub)
      (fun _ s1 => s1.self.address = s.self.address ∧ s1.self.port = s.self.port ∧
        s1.self.users = s.self.users)
      (fun _ s1 => s1.self.address = s.self.address ∧ s1.self.port = s.self.port ∧
        s1.self.users = s.self.users) s := by
  simp only [readKeys, generatePrivateKey, checkPrivateKey, generatePublicKey, checkPublicKey,
    checkKeysAreMatching, wp_bind, wp_pure, wp_ite, wp_record, wp_fileExists, wp_fileOpen_readOnly,
    wp_fileOpen_readOnlyText, wp_fileOpen_writeOnly, wp_system, wp_readAll, wp_modifySelf,
    wp_failConfiguration]
  simp

theorem run_eq_of_wp {α : Type} {m : Run α} {s : State} {r : Outcome α × State}
    (h : wp m (fun a s1 => r = (Outcome.ok a, s1)) (fun e s1 => r = (Outcome.fail e, s1)) s) :
    m s = r := by
  unfold wp at h
  rcases hm : m s with ⟨o, s2⟩
  rw [hm] at h
  cases o with
  | ok a => exact h.symm
  | fail e => exact h.symm

/-! ## The configuration file -/

/-- The loop over the user tables changes nothing but the list of users. -/
theorem loadUsers_frame (file : String) (tables : List UserTable) (s : State) :
    wp (loadUsers file tables)
      (fun _ s1 => s1.self.address = s.self.address ∧ s1.self.port = s.self.port ∧
        s1.self.privateKey = s.self.privateKey ∧ s1.self.publicKey = s.self.publicKey ∧
        s1.fs = s.fs ∧ s1.log = s.log)
      (fun _ s1 => s1.self.address = s.self.address ∧ s1.self.port = s.self.port ∧
        s1.self.privateKey = s.self.privateKey ∧ s1.self.publicKey = s.self.publicKey ∧
        s1.fs = s.fs ∧ s1.log = s.log) s := by
  induction tables generalizing s with
  | nil => simp [loadUsers, wp_pure]
  | cons t rest ih =>
    simp only [loadUsers, wp_bind, wp_pure, wp_ite, wp_modifySelf, wp_failConfiguration]
    refine ⟨fun _ => by simp, fun _ => ⟨fun _ => by simp, fun _ => ?_⟩⟩
    exact wp_mono (ih _) (fun _ s1 h => by simpa using h) (fun _ s1 h => by simpa using h)

/-- The last step of `loadConfiguration`, the user tables if there are any,
changes nothing but the list of users. -/
theorem loadUsersOpt_frame (file : String) (tables : Option (List UserTable)) (s : State) :
    wp (match tables with
        | none => pure ()
        | some userTableArray => loadUsers file userTableArray)
      (fun _ s1 => s1.self.address = s.self.address ∧ s1.self.port = s.self.port ∧
        s1.self.privateKey = s.self.privateKey ∧ s1.self.publicKey = s.self.publicKey ∧
        s1.fs = s.fs ∧ s1.log = s.log)
      (fun _ s1 => s1.self.address = s.self.address ∧ s1.self.port = s.self.port ∧
        s1.self.privateKey = s.self.privateKey ∧ s1.self.publicKey = s.self.publicKey ∧
        s1.fs = s.fs ∧ s1.log = s.log) s := by
  cases tables with
  | none => simp [wp_pure]
  | some t => exact loadUsers_frame file t s

/-- What a successful `loadConfiguration` guarantees about address and port:
the file was readable and parsed, its port fits 16 bits, and each of the two
fields took the value of the file (or the default) exactly when it was unset. -/
theorem loadConfiguration_ok (env : Env) (file : String) (s : State) :
    wp (loadConfiguration env file)
      (fun _ s1 => ∃ config f, s.fs.find file = some f ∧ f.readable = true ∧
        env.parseToml f.content = Except.ok config ∧
        0 ≤ config.port.getD 80 ∧ config.port.getD 80 ≤ 65535 ∧
        s1.self.address =
          (if s.self.address = "" then config.address.getD defaultAddress else s.self.address) ∧
        s1.self.port =
          (if s.self.port = 0 then (config.port.getD 80).toNat else s.self.port))
      (fun _ _ => True) s := by
  simp only [loadConfiguration, wp_bind, wp_record, wp_parseFile]
  split
  · simp [wp_failConfiguration]
  · rename_i config hparse
    have hfile : ∃ f, s.fs.find file = some f ∧ f.readable = true ∧
        env.parseToml f.content = Except.ok config := by
      revert hparse
      cases hfind : s.fs.find file with
      | none => simp
      | some f =>
        intro h
        by_cases hr : f.readable = true
        · simp [hr] at h ⊢; exact h
        · simp [hr] at h
    obtain ⟨f, hfind, hread, hconfig⟩ := hfile
    simp only [wp_bind, wp_getPort, wp_getState, wp_ite, wp_modifySelf, wp_pure]
    repeat' (first | (intro _) | (apply And.intro))
    all_goals first
      | (refine wp_mono (loadUsersOpt_frame _ _ _) (fun _ s1 h => ?_) (fun _ _ _ => trivial)
         refine ⟨config, f, hfind, hread, hconfig, ?_⟩
         simp_all)
      | (refine wp_mono (readKeys_self_frame _ _ _ _) (fun _ s2 h2 => ?_) (fun _ _ _ => trivial)
         refine wp_mono (loadUsersOpt_frame _ _ _) (fun _ s1 h => ?_) (fun _ _ _ => trivial)
         refine ⟨config, f, hfind, hread, hconfig, ?_⟩
         simp_all)
      | trivial

/-- What a successful search of the default files guarantees: nothing was
loaded when it returns false, and otherwise one of the files was loaded. -/
theorem loadFirstDefault_ok (env : Env) (files : List String) (s : State) :
    wp (loadFirstDefault env files)
      (fun found s1 => found = true → ∃ file config f, file ∈ files ∧
        s.fs.find file = some f ∧ f.readable = true ∧
        env.parseToml f.content = Except.ok config ∧
        0 ≤ config.port.getD 80 ∧ config.port.getD 80 ≤ 65535 ∧
        s1.self.address =
          (if s.self.address = "" then config.address.getD defaultAddress else s.self.address) ∧
        s1.self.port =
          (if s.self.port = 0 then (config.port.getD 80).toNat else s.self.port))
      (fun _ _ => True) s := by
  induction files generalizing s with
  | nil => simp [loadFirstDefault, wp_pure]
  | cons p rest ih =>
    simp only [loadFirstDefault, wp_bind, wp_fileExists, wp_ite, wp_pure]
    refine ⟨fun _ => ?_, fun _ => ?_⟩
    · refine wp_mono (loadConfiguration_ok env p _) (fun _ s1 h => ?_) (fun _ _ _ => trivial)
      obtain ⟨config, f, h1, h2, h3, h4, h5, h6, h7⟩ := h
      exact fun _ => ⟨p, config, f, by simp, h1, h2, h3, h4, h5, h6, h7⟩
    · refine wp_mono (ih _) (fun found s1 h => ?_) (fun _ _ _ => trivial)
      intro hfound
      obtain ⟨file, config, f, hmem, h1, h2, h3, h4, h5, h6, h7⟩ := h hfound
      exact ⟨file, config, f, by simp [hmem], h1, h2, h3, h4, h5, h6, h7⟩

/-- What a successful `configOption` guarantees: one file, the one named by
`--config` or else a default one, was read and parsed, and address and port
were merged from it. -/
theorem configOption_ok (env : Env) (parser : CommandLine) (s : State) :
    wp (configOption env parser)
      (fun _ s1 => ∃ file config f,
        ((CommandLine.value parser.config ≠ "" ∧ file = CommandLine.value parser.config) ∨
          (CommandLine.value parser.config = "" ∧ file ∈ defaultConfigurationFiles env)) ∧
        s.fs.find file = some f ∧ f.readable = true ∧
        env.parseToml f.content = Except.ok config ∧
        0 ≤ config.port.getD 80 ∧ config.port.getD 80 ≤ 65535 ∧
        s1.self.address =
          (if s.self.address = "" then config.address.getD defaultAddress else s.self.address) ∧
        s1.self.port =
          (if s.self.port = 0 then (config.port.getD 80).toNat else s.self.port))
      (fun _ _ => True) s := by
  simp only [configOption, wp_ite, wp_bind]
  refine ⟨fun hc => ?_, fun hc => ?_⟩
  · refine wp_mono (loadFirstDefault_ok env _ s) (fun found s1 h => ?_) (fun _ _ _ => trivial)
    simp only [wp_ite, wp_failConfiguration, wp_pure]
    refine ⟨fun _ => trivial, fun hfound => ?_⟩
    have hf : found = true := by simpa using hfound
    obtain ⟨file, config, f, hmem, h1, h2, h3, h4, h5, h6, h7⟩ := h hf
    exact ⟨file, config, f, Or.inr ⟨hc, hmem⟩, h1, h2, h3, h4, h5, h6, h7⟩
  · refine wp_mono (loadConfiguration_ok env _ s) (fun _ s1 h => ?_) (fun _ _ _ => trivial)
    obtain ⟨config, f, h1, h2, h3, h4, h5, h6, h7⟩ := h
    exact ⟨_, config, f, Or.inl ⟨hc, rfl⟩, h1, h2, h3, h4, h5, h6, h7⟩

/-! ## Final validation -/

/-- The result of `checkConfiguration` in every case: the first check that
fails decides the message, and nothing but the warning is ever added to the
state. -/
theorem checkConfiguration_eq (env : Env) (s : State) :
    checkConfiguration env s =
      if s.self.port = 0 then
        (Outcome.fail (Failure.exit 1 "You specified the only invalid port, which is 0."), s)
      else if env.setAddress s.self.address = false then
        (Outcome.fail (Failure.exit 1
          ("The address " ++ s.self.address ++ " seems to be invalid.")), s)
      else if s.self.privateKey = "" then
        (Outcome.fail (Failure.exit 1 "No private key specified."), s)
      else if s.self.publicKey = "" then
        (Outcome.fail (Failure.exit 1 "No public key specified."), s)
      else if s.self.users = [] then
        (Outcome.ok (),
          { s with log := s.log ++ [Event.debug "There are no users in your configuration."] })
      else (Outcome.ok (), s) := by
  apply run_eq_of_wp
  simp only [checkConfiguration, wp_bind, wp_getState, wp_ite, wp_failConfiguration,
    wp_warnConfiguration, wp_pure]
  by_cases h1 : s.self.port = 0
  · simp [h1]
  · by_cases h2 : env.setAddress s.self.address = false
    · simp [h1, h2]
    · by_cases h3 : s.self.privateKey = ""
      · simp [h1, h2, h3]
      · by_cases h4 : s.self.publicKey = ""
        · simp [h1, h2, h3, h4]
        · by_cases h5 : s.self.users = []
          · simp [h1, h2, h3, h4, h5]
          · simp [h1, h2, h3, h4, h5]

/-! ## The constructor -/

theorem Run.bind_ok {α β : Type} {m : Run α} {f : α → Run β} {s s2 : State} {b : β} :
    (m >>= f) s = (Outcome.ok b, s2) ↔
      ∃ a s1, m s = (Outcome.ok a, s1) ∧ f a s1 = (Outcome.ok b, s2) := by
  simp only [Run.bind_apply, Run.bind]
  rcases hm : m s with ⟨o, s1⟩
  cases o with
  | ok a =>
    constructor
    · intro h; exact ⟨a, s1, rfl, h⟩
    · rintro ⟨a1, s3, heq, h⟩
      cases heq; exact h
  | fail e => simp

/-- The result of the address and port options in every case. -/
theorem addressAndPortOptions_eq (parser : CommandLine) (s : State) :
    addressAndPortOptions parser s =
      if CommandLine.value parser.port = "" then
        (Outcome.ok (),
          { s with self := { s.self with address := CommandLine.value parser.address } })
      else
        match toUInt (CommandLine.value parser.port) with
        | none =>
            (Outcome.fail (Failure.exit 1
                ("Port " ++ CommandLine.value parser.port ++ " is not a number.")),
              { s with self := { s.self with address := CommandLine.value parser.address } })
        | some p =>
            if 0 < p ∧ p ≤ 65535 then
              (Outcome.ok (),
                { s with self :=
                    { s.self with address := CommandLine.value parser.address, port := p } })
            else
              (Outcome.fail (Failure.exit 1
                  ("Port " ++ QString.ofInteger p ++ " is out of range (1-65535).")),
                { s with self := { s.self with address := CommandLine.value parser.address } })
    := by
  apply run_eq_of_wp
  simp only [addressAndPortOptions, wp_bind, wp_modifySelf, wp_ite, wp_pure]
  by_cases h : CommandLine.value parser.port = ""
  · simp [h]
  · cases hp : toUInt (CommandLine.value parser.port) with
    | none => simp [h, wp_failConfiguration]
    | some p =>
      by_cases hr : 0 < p ∧ p ≤ 65535
      · have hmod : p % 65536 = p := Nat.mod_eq_of_lt (by omega)
        simp [h, hr, wp_ite, wp_modifySelf, hmod]
      · simp [h, hr, wp_ite, wp_failConfiguration]

/-- The result of the key options in every case. -/
theorem keyOptions_eq (env : Env) (parser : CommandLine) (s : State) :
    keyOptions env parser s =
      if CommandLine.value parser.privateKey = "" ∧ CommandLine.value parser.publicKey ≠ "" then
        (Outcome.fail (Failure.exit 1
          "If you specify a private key file, you also have to specify a public key file"), s)
      else if CommandLine.value parser.privateKey ≠ "" ∧
          CommandLine.value parser.publicKey = "" then
        (Outcome.fail (Failure.exit 1
          "If you specify a public key file, you also have to specify a private key file"), s)
      else if CommandLine.value parser.privateKey ≠ "" ∧
          CommandLine.value parser.publicKey ≠ "" then
        readKeys env (CommandLine.value parser.privateKey) (CommandLine.value parser.publicKey) s
      else (Outcome.ok (), s) := by
  by_cases h1 : CommandLine.value parser.privateKey = "" <;>
    by_cases h2 : CommandLine.value parser.publicKey = "" <;>
    simp only [keyOptions, h1, h2, ne_eq, not_true_eq_false, not_false_eq_true, and_self,
      and_true, and_false, if_true, if_false] <;>
    rfl

/-- The constructor is its five steps in a row. -/
theorem Configuration_ok_steps {env : Env} {parser : CommandLine} {s0 s1 : State}
    (hrun : Configuration.Configuration env parser s0 = (Outcome.ok (), s1)) :
    ∃ sa sk sc,
      addressAndPortOptions parser { s0 with self := ⟨"", 0, "", "", []⟩ } = (Outcome.ok (), sa) ∧
      keyOptions env parser sa = (Outcome.ok (), sk) ∧
      configOption env parser sk = (Outcome.ok (), sc) ∧
      checkConfiguration env sc = (Outcome.ok (), s1) := by
  unfold Configuration.Configuration at hrun
  obtain ⟨_, si, h0, hrun1⟩ := Run.bind_ok.mp hrun
  obtain ⟨_, sa, ha, hrun2⟩ := Run.bind_ok.mp hrun1
  obtain ⟨_, sk, hk, hrun3⟩ := Run.bind_ok.mp hrun2
  obtain ⟨_, sc, hc, hrun4⟩ := Run.bind_ok.mp hrun3
  have hsi : si = { s0 with self := ⟨"", 0, "", "", []⟩ } := by
    simp only [modifySelf, Prod.mk.injEq] at h0
    exact h0.2.symm
  subst hsi
  exact ⟨sa, sk, sc, ha, hk, hc, hrun4⟩

/-- What successful address and port options leave behind. -/
theorem addressAndPortOptions_ok {parser : CommandLine} {s sa : State}
    (h : addressAndPortOptions parser s = (Outcome.ok (), sa)) :
    sa.fs = s.fs ∧ sa.log = s.log ∧ sa.self.address = CommandLine.value parser.address ∧
      sa.self.privateKey = s.self.privateKey ∧ sa.self.publicKey = s.self.publicKey ∧
      sa.self.users = s.self.users ∧
      ((CommandLine.value parser.port = "" ∧ sa.self.port = s.self.port) ∨
        (CommandLine.value parser.port ≠ "" ∧ ∃ p, toUInt (CommandLine.value parser.port) = some p ∧
          0 < p ∧ p ≤ 65535 ∧ sa.self.port = p)) := by
  rw [addressAndPortOptions_eq] at h
  by_cases hp : CommandLine.value parser.port = ""
  · simp only [hp, if_true, Prod.mk.injEq, true_and] at h
    subst h
    simp [hp]
  · cases hu : toUInt (CommandLine.value parser.port) with
    | none => simp [hp, hu] at h
    | some p =>
      by_cases hr : 0 < p ∧ p ≤ 65535
      · simp only [hp, hu, hr, if_false, and_self, if_true, Prod.mk.injEq, true_and] at h
        subst h
        simp [hp, hr.1, hr.2]
      · simp [hp, hu, hr] at h

/-- What successful key options leave behind: without a private key option
nothing has happened, and otherwise `readKeys` has run on the two paths of the
command line. -/
theorem keyOptions_ok {env : Env} {parser : CommandLine} {s sk : State}
    (h : keyOptions env parser s = (Outcome.ok (), sk)) :
    sk.self.address = s.self.address ∧ sk.self.port = s.self.port ∧
      sk.self.users = s.self.users ∧
      (CommandLine.value parser.privateKey = "" → sk = s) ∧
      (CommandLine.value parser.privateKey ≠ "" →
        readKeys env (CommandLine.value parser.privateKey)
          (CommandLine.value parser.publicKey) s = (Outcome.ok (), sk)) := by
  rw [keyOptions_eq] at h
  split_ifs at h with h1 h2 h3
  · simp at h
  · simp at h
  · have hf := wp_of_run (readKeys_self_frame env _ _ s) h
    exact ⟨hf.1, hf.2.1, hf.2.2, fun h0 => absurd h0 h3.1, fun _ => h⟩
  · cases h
    refine ⟨rfl, rfl, rfl, fun _ => rfl, fun hne => ?_⟩
    by_cases hpub : CommandLine.value parser.publicKey = ""
    · exact absurd ⟨hne, hpub⟩ h2
    · exact absurd ⟨hne, hpub⟩ h3

/-- What a successful final validation guarantees. -/
theorem checkConfiguration_ok {env : Env} {s s1 : State}
    (h : checkConfiguration env s = (Outcome.ok (), s1)) :
    s1.self = s.self ∧ s1.fs = s.fs ∧ s.self.port ≠ 0 ∧ env.setAddress s.self.address = true ∧
      s.self.privateKey ≠ "" ∧ s.self.publicKey ≠ "" := by
  rw [checkConfiguration_eq] at h
  split_ifs at h with h1 h2 h3 h4 h5
  · simp at h
  · simp at h
  · simp at h
  · simp at h
  · cases h
    simp_all
  · cases h
    simp_all

/-- What a successful constructor guarantees: a configuration file was read and
parsed in the file system `fsl` that the key options left behind, which is
the initial one when no key option is given and the one after `readKeys` on
the two paths of the command line otherwise; address and port come from the
command line when given there, else from that file or the defaults; and the
final validation accepted the result. -/
theorem Configuration_ok {env : Env} {parser : CommandLine} {s0 s1 : State}
    (hrun : Configuration.Configuration env parser s0 = (Outcome.ok (), s1)) :
    ∃ file config f fsl,
      ((CommandLine.value parser.privateKey = "" → fsl = s0.fs) ∧
        (CommandLine.value parser.privateKey ≠ "" → ∃ sa sk, sa.fs = s0.fs ∧ sa.log = s0.log ∧
          readKeys env (CommandLine.value parser.privateKey)
            (CommandLine.value parser.publicKey) sa = (Outcome.ok (), sk) ∧ fsl = sk.fs)) ∧
      ((CommandLine.value parser.config ≠ "" ∧ file = CommandLine.value parser.config) ∨
        (CommandLine.value parser.config = "" ∧ file ∈ defaultConfigurationFiles env)) ∧
      FS.find fsl file = some f ∧ f.readable = true ∧
      env.parseToml f.content = Except.ok config ∧
      0 ≤ config.port.getD 80 ∧ config.port.getD 80 ≤ 65535 ∧
      s1.self.address =
        (if CommandLine.value parser.address = "" then config.address.getD defaultAddress
         else CommandLine.value parser.address) ∧
      ((CommandLine.value parser.port = "" ∧ s1.self.port = (config.port.getD 80).toNat) ∨
        (CommandLine.value parser.port ≠ "" ∧
          ∃ p, toUInt (CommandLine.value parser.port) = some p ∧ 0 < p ∧ p ≤ 65535 ∧
            s1.self.port = p)) ∧
      s1.self.port ≠ 0 ∧ env.setAddress s1.self.address = true ∧
      s1.self.privateKey ≠ "" ∧ s1.self.publicKey ≠ "" := by
  obtain ⟨sa, sk, sc, ha, hk, hc, hv⟩ := Configuration_ok_steps hrun
  obtain ⟨hafs, halog, haaddr, -, -, -, haport⟩ := addressAndPortOptions_ok ha
  obtain ⟨hkaddr, hkport, -, hknone, hksome⟩ := keyOptions_ok hk
  obtain ⟨file, config, f, hchoice, hfind, hread, hparse, hlo, hhi, hcaddr, hcport⟩ :=
    wp_of_run (configOption_ok env parser sk) hc
  obtain ⟨hself, -, hvport, hvaddr, hvpriv, hvpub⟩ := checkConfiguration_ok hv
  refine ⟨file, config, f, sk.fs, ⟨?_, ?_⟩, hchoice, hfind, hread, hparse, hlo, hhi, ?_, ?_, ?_,
    ?_, ?_, ?_⟩
  · intro h0
    rw [hknone h0, hafs]
  · intro hne
    exact ⟨sa, sk, hafs, halog, hksome hne, rfl⟩
  · rw [hself, hcaddr, hkaddr, haaddr]
  · rw [hself, hcport, hkport]
    rcases haport with ⟨h1, h2⟩ | ⟨h1, p, h2, h3, h4, h5⟩
    · exact Or.inl ⟨h1, by simp [h2]⟩
    · refine Or.inr ⟨h1, p, h2, h3, h4, ?_⟩
      have : p ≠ 0 := by omega
      simp [h5, this]
  · rw [hself]; exact hvport
  · rw [hself]; exact hvaddr
  · rw [hself]; exact hvpriv
  · rw [hself]; exact hvpub

/-! ## Decimal numerals -/

theorem digitChar_toNat {k : Nat} (h : k < 10) : (Nat.digitChar k).toNat - 48 = k := by
  interval_cases k <;> rfl

theorem digitChar_isDigit {k : Nat} (h : k < 10) : (Nat.digitChar k).isDigit = true := by
  interval_cases k <;> rfl

theorem isSpace_of_isDigit {c : Char} (h : c.isDigit = true) : isSpace c = false := by
  simp only [Char.isDigit, Bool.and_eq_true, decide_eq_true_eq] at h
  have h1 : 48 ≤ c.toNat := h.1
  have h2 : c.toNat ≤ 57 := h.2
  simp only [isSpace]
  simp
  omega

theorem decimalValue_toDigitsCore (fuel n : Nat) (ds : List Char) (h : n < fuel) :
    (Nat.toDigitsCore 10 fuel n ds).foldl (fun v c => 10 * v + (c.toNat - 48)) 0 =
      ds.foldl (fun v c => 10 * v + (c.toNat - 48)) n := by
  induction fuel generalizing n ds with
  | zero => omega
  | succ fuel ih =>
    simp only [Nat.toDigitsCore]
    have hd := digitChar_toNat (Nat.mod_lt n (by decide : 10 > 0))
    split
    · rename_i hz
      simp only [List.foldl_cons, hd]
      congr 1
      omega
    · rename_i hz
      rw [ih (n / 10) _ (by omega)]
      simp only [List.foldl_cons, hd]
      congr 1
      omega

theorem all_isDigit_toDigitsCore (fuel n : Nat) (ds : List Char)
    (h : ds.all Char.isDigit = true) :
    (Nat.toDigitsCore 10 fuel n ds).all Char.isDigit = true := by
  induction fuel generalizing n ds with
  | zero => simpa [Nat.toDigitsCore] using h
  | succ fuel ih =>
    simp only [Nat.toDigitsCore]
    have hd := digitChar_isDigit (Nat.mod_lt n (by decide : 10 > 0))
    split
    · simp only [List.all_cons, hd, h, Bool.and_self]
    · exact ih _ _ (by simp only [List.all_cons, hd, h, Bool.and_self])

theorem toDigitsCore_ne_nil (fuel n : Nat) (ds : List Char) (h : ds ≠ [] ∨ 0 < fuel) :
    Nat.toDigitsCore 10 fuel n ds ≠ [] := by
  induction fuel generalizing n ds with
  | zero =>
    rcases h with h | h
    · simpa [Nat.toDigitsCore] using h
    · omega
  | succ fuel ih =>
    simp only [Nat.toDigitsCore]
    split
    · simp
    · exact ih _ _ (Or.inl (by simp))

theorem dropWhile_isSpace_digits (ds : List Char) (h : ds.all Char.isDigit = true) :
    ds.dropWhile isSpace = ds := by
  cases ds with
  | nil => rfl
  | cons c rest =>
    simp only [List.all_cons, Bool.and_eq_true] at h
    simp [List.dropWhile, isSpace_of_isDigit h.1]

theorem trimSpaces_digits (ds : List Char) (h : ds.all Char.isDigit = true) :
    trimSpaces ds = ds := by
  unfold trimSpaces
  rw [dropWhile_isSpace_digits ds h, dropWhile_isSpace_digits ds.reverse (by simpa using h)]
  simp

/-- The library conversion accepts the decimal numeral of every number that
fits 32 bits and gives the number back. -/
theorem toUInt_toString (p : Nat) (h : p < 2 ^ 32) : toUInt (toString p) = some p := by
  have hl : (toString p).toList = Nat.toDigits 10 p := rfl
  have hall : (Nat.toDigits 10 p).all Char.isDigit = true :=
    all_isDigit_toDigitsCore _ _ _ rfl
  have hne : Nat.toDigits 10 p ≠ [] := toDigitsCore_ne_nil _ _ _ (Or.inr (by omega))
  have hval : decimalValue (Nat.toDigits 10 p) = p := by
    unfold decimalValue Nat.toDigits
    rw [decimalValue_toDigitsCore _ _ _ (by omega)]
    rfl
  have hplus : stripPlus (Nat.toDigits 10 p) = Nat.toDigits 10 p := by
    cases hd : Nat.toDigits 10 p with
    | nil => rfl
    | cons c rest =>
      rw [hd] at hall
      simp only [List.all_cons, Bool.and_eq_true] at hall
      unfold stripPlus
      split
      · rename_i heq
        cases heq
        exact absurd hall.1 (by decide)
      · rfl
  unfold toUInt
  rw [hl, trimSpaces_digits _ hall]
  simp only [hplus, hall, hval, hne, ne_eq, not_false_eq_true, and_self, if_true, h]

/-! ## Further facts used by the claims -/

/-- When an early step fails, the constructor fails with it. -/
theorem Configuration_fail_options {env : Env} {parser : CommandLine} {s s1 : State}
    {e : Failure}
    (h : addressAndPortOptions parser { s with self := ⟨"", 0, "", "", []⟩ } =
      (Outcome.fail e, s1)) :
    Configuration.Configuration env parser s = (Outcome.fail e, s1) := by
  simp only [Configuration.Configuration, Run.bind_apply, Run.bind, modifySelf, h]

theorem Configuration_fail_keys {env : Env} {parser : CommandLine} {s sa s1 : State}
    {e : Failure}
    (ha : addressAndPortOptions parser { s with self := ⟨"", 0, "", "", []⟩ } =
      (Outcome.ok (), sa))
    (h : keyOptions env parser sa = (Outcome.fail e, s1)) :
    Configuration.Configuration env parser s = (Outcome.fail e, s1) := by
  simp only [Configuration.Configuration, Run.bind_apply, Run.bind, modifySelf, ha, h]

/-- The address and port options either succeed or fail with exit code 1; they
touch neither the file system nor the trace. -/
theorem addressAndPortOptions_cases (parser : CommandLine) (s : State) :
    (∃ sa, addressAndPortOptions parser s = (Outcome.ok (), sa) ∧ sa.fs = s.fs ∧
        sa.log = s.log) ∨
      (∃ message s1, addressAndPortOptions parser s = (Outcome.fail (Failure.exit 1 message), s1) ∧
        s1.fs = s.fs ∧ s1.log = s.log) := by
  rw [addressAndPortOptions_eq]
  by_cases hp : CommandLine.value parser.port = ""
  · simp only [hp, if_true]
    exact Or.inl ⟨_, rfl, rfl, rfl⟩
  · cases hu : toUInt (CommandLine.value parser.port) with
    | none =>
      simp only [hp, if_false]
      exact Or.inr ⟨_, _, rfl, rfl, rfl⟩
    | some p =>
      by_cases hr : 0 < p ∧ p ≤ 65535
      · simp only [hp, hr, if_false, and_self, if_true]
        exact Or.inl ⟨_, rfl, rfl, rfl⟩
      · simp only [hp, hr, if_false]
        exact Or.inr ⟨_, _, rfl, rfl, rfl⟩

/-- A run whose outcome is a value is that value and the state reached. -/
theorem eta_run {α : Type} (r : Outcome α × State) (a : α) (h : r.1 = Outcome.ok a) :
    r = (Outcome.ok a, r.2) := by
  rcases r with ⟨o, s⟩
  simp at h
  rw [h]


/-! # The claims -/

theorem getUserLoop_spec (users : List User) (name : String) :
    (∃ before user after, users = before ++ user :: after ∧
        (∀ u ∈ before, u.getName ≠ name) ∧ user.getName = name ∧
        getUserLoop users name = user) ∨
      ((∀ u ∈ users, u.getName ≠ name) ∧ getUserLoop users name = User.mk name "" []) := by
  induction users with
  | nil => exact Or.inr ⟨by simp, rfl⟩
  | cons u rest ih =>
    by_cases h : u.getName = name
    · exact Or.inl ⟨[], u, rest, rfl, by simp, h, by simp [getUserLoop, h]⟩
    · rcases ih with ⟨before, user, after, hsplit, hbefore, hname, hget⟩ | ⟨hnone, hget⟩
      · refine Or.inl ⟨u :: before, user, after, by simp [hsplit], ?_, hname, ?_⟩
        · intro v hv
          rcases List.mem_cons.mp hv with rfl | hv
          · exact h
          · exact hbefore v hv
        · simp [getUserLoop, h, hget]
      · refine Or.inr ⟨?_, by simp [getUserLoop, h, hget]⟩
        intro v hv
        rcases List.mem_cons.mp hv with rfl | hv
        · exact h
        · exact hnone v hv

/-- C1: `getUser` returns the first user, in list order, whose name is the
requested one, also when later users carry the same name; when no user has
that name it returns `User(name, "", [])`, with an empty password and no
claims, and that user is not in the list.  The lookup is a function of the
object: the list of users is not among its results and stays as it was. -/
theorem getUser_first_match_or_sentinel (c : Configuration) (name : String) :
    (∃ before user after, c.users = before ++ user :: after ∧
        (∀ u ∈ before, u.getName ≠ name) ∧ user.getName = name ∧
        c.getUser name = user) ∨
      ((∀ u ∈ c.users, u.getName ≠ name) ∧
        c.getUser name = User.mk name "" [] ∧
        (c.getUser name).password = "" ∧ (c.getUser name).claims = [] ∧
        User.mk name "" [] ∉ c.users) := by
  rcases getUserLoop_spec c.users name with h | ⟨hnone, hget⟩
  · exact Or.inl h
  · refine Or.inr ⟨hnone, hget, ?_, ?_, ?_⟩
    · simp [Configuration.getUser, hget]
    · simp [Configuration.getUser, hget]
    · intro hmem
      exact hnone _ hmem rfl

/-- C2, counterexample: the empty string is a port string that does not parse
as an unsigned integer, and with `--port ""` startup does not fail: the port
step returns with nothing changed, the constructor succeeds, and the port is
the default one. -/
theorem empty_port_string_is_not_rejected :
    toUInt "" = none ∧
      addressAndPortOptions ⟨none, some "", none, none, none⟩ (State.start sampleFS) =
        (Outcome.ok (), State.start sampleFS) ∧
      (Configuration.Configuration sampleEnv ⟨none, some "", none, none, none⟩
        (State.start sampleFS)).1 = Outcome.ok () ∧
      (Configuration.Configuration sampleEnv ⟨none, some "", none, none, none⟩
        (State.start sampleFS)).2.self.port = 80 := by
  refine ⟨by decide, by decide!, by decide!, by decide!⟩

/-- C2, amended: for a port string `text` given on the command line:
when it is the decimal numeral of `p` with `1 ≤ p ≤ 65535`, the port validation
succeeds with the port set to `p`, and every configuration the constructor
resolves has port `p`; when it is `"0"`, or is not empty and does not parse as
an unsigned integer, the constructor fails with exit code 1 and has touched
neither the file system nor the trace; the empty string is taken as no port
at all. -/
theorem port_option_validation (env : Env) (parser : CommandLine) (s : State) (text : String)
    (hport : parser.port = some text) :
    (∀ p, text = toString p → 1 ≤ p → p ≤ 65535 →
      addressAndPortOptions parser s =
        (Outcome.ok (), { s with self :=
          { s.self with address := CommandLine.value parser.address, port := p } }) ∧
      ∀ s1, Configuration.Configuration env parser s = (Outcome.ok (), s1) →
        s1.self.port = p) ∧
    ((text = "0" ∨ (text ≠ "" ∧ toUInt text = none)) →
      ∃ message s1, Configuration.Configuration env parser s =
          (Outcome.fail (Failure.exit 1 message), s1) ∧
        s1.fs = s.fs ∧ s1.log = s.log) ∧
    (text = "" →
      addressAndPortOptions parser s =
        (Outcome.ok (), { s with self :=
          { s.self with address := CommandLine.value parser.address } })) := by
  have hvalue : CommandLine.value parser.port = text := by simp [CommandLine.value, hport]
  refine ⟨?_, ?_, ?_⟩
  · intro p htext h1 h2
    have hparse : toUInt text = some p := by
      rw [htext]; exact toUInt_toString p (by omega)
    have hne : text ≠ "" := by
      intro h0
      rw [h0] at hparse
      have hempty : toUInt "" = none := by decide
      rw [hempty] at hparse
      cases hparse
    refine ⟨?_, ?_⟩
    · rw [addressAndPortOptions_eq, hvalue]
      simp only [hne, if_false, hparse]
      have hr : 0 < p ∧ p ≤ 65535 := ⟨by omega, h2⟩
      simp only [hr, and_self, if_true]
    · intro s1 hrun
      obtain ⟨_, _, _, _, _, _, _, _, _, _, _, _, hp, _⟩ := Configuration_ok hrun
      rw [hvalue] at hp
      rcases hp with ⟨h0, _⟩ | ⟨_, q, hq, _, _, hs⟩
      · exact absurd h0 hne
      · rw [hparse] at hq
        cases hq
        exact hs
  · intro h
    have hfail : ∃ message s1,
        addressAndPortOptions parser { s with self := ⟨"", 0, "", "", []⟩ } =
          (Outcome.fail (Failure.exit 1 message), s1) ∧ s1.fs = s.fs ∧ s1.log = s.log := by
      rw [addressAndPortOptions_eq, hvalue]
      rcases h with h0 | ⟨hne, hnone⟩
      · subst h0
        have hz : toUInt "0" = some 0 := by decide
        have hs : ("0" : String) ≠ "" := by decide
        simp only [hs, if_false, hz]
        exact ⟨_, _, rfl, rfl, rfl⟩
      · simp only [hne, if_false, hnone]
        exact ⟨_, _, rfl, rfl, rfl⟩
    obtain ⟨message, s1, hrun, hfs, hlog⟩ := hfail
    exact ⟨message, s1, Configuration_fail_options hrun, hfs, hlog⟩
  · intro h0
    rw [addressAndPortOptions_eq, hvalue]
    simp only [h0, if_true]

/-- C2, witness: `--port 443` and `--port 0` on the sample system. -/
theorem port_option_validation_witness :
    (∀ s1, Configuration.Configuration sampleEnv ⟨none, some "443", none, none, none⟩
        (State.start sampleFS) = (Outcome.ok (), s1) → s1.self.port = 443) ∧
      (∃ message s1, Configuration.Configuration sampleEnv ⟨none, some "0", none, none, none⟩
          (State.start sampleFS) = (Outcome.fail (Failure.exit 1 message), s1) ∧
        s1.fs = sampleFS ∧ s1.log = []) :=
  ⟨((port_option_validation sampleEnv ⟨none, some "443", none, none, none⟩
      (State.start sampleFS) "443" rfl).1 443 (by decide) (by decide) (by decide)).2,
   (port_option_validation sampleEnv ⟨none, some "0", none, none, none⟩
      (State.start sampleFS) "0" rfl).2.1 (Or.inl rfl)⟩

/-- C3: in every configuration the constructor resolves, address and port
follow the precedence command line, file, default.  A configuration file was
read (the one named by `--config`, else a default one) and parsed to `config`,
in the file system `fsl` that the key options left behind: the initial one
without key options, the one after `readKeys` on the two paths of the command
line otherwise.  A non-empty address and a valid port given on the command
line are the resolved values whatever `config` holds; a field absent from the
command line has the value of `config`; and a field absent from both is
`"0.0.0.0"` for the address and 80 for the port. -/
theorem address_and_port_precedence (env : Env) (parser : CommandLine) (s0 s1 : State)
    (hrun : Configuration.Configuration env parser s0 = (Outcome.ok (), s1)) :
    ∃ file config f fsl,
      ((CommandLine.value parser.privateKey = "" → fsl = s0.fs) ∧
        (CommandLine.value parser.privateKey ≠ "" → ∃ sa sk, sa.fs = s0.fs ∧ sa.log = s0.log ∧
          readKeys env (CommandLine.value parser.privateKey)
            (CommandLine.value parser.publicKey) sa = (Outcome.ok (), sk) ∧ fsl = sk.fs)) ∧
      ((CommandLine.value parser.config ≠ "" ∧ file = CommandLine.value parser.config) ∨
        (CommandLine.value parser.config = "" ∧ file ∈ defaultConfigurationFiles env)) ∧
      FS.find fsl file = some f ∧ f.readable = true ∧
      env.parseToml f.content = Except.ok config ∧
      (∀ a, parser.address = some a → a ≠ "" → s1.self.address = a) ∧
      (∀ text p, parser.port = some text → toUInt text = some p → 1 ≤ p → p ≤ 65535 →
        s1.self.port = p) ∧
      (parser.address = none → s1.self.address = config.address.getD "0.0.0.0") ∧
      (parser.port = none → (s1.self.port : Int) = config.port.getD 80) ∧
      (parser.address = none → config.address = none → s1.self.address = "0.0.0.0") ∧
      (parser.port = none → config.port = none → s1.self.port = 80) := by
  obtain ⟨file, config, f, fsl, hframe, hchoice, hfind, hread, hparse, hlo, hhi, haddr, hp,
    -, -, -, -⟩ := Configuration_ok hrun
  have hempty : toUInt "" = none := by decide
  refine ⟨file, config, f, fsl, hframe, hchoice, hfind, hread, hparse, ?_, ?_, ?_, ?_, ?_, ?_⟩
  · intro a ha hne
    rw [haddr]
    simp [CommandLine.value, ha, hne]
  · intro text p htext hparsed _ _
    have hvalue : CommandLine.value parser.port = text := by simp [CommandLine.value, htext]
    rw [hvalue] at hp
    rcases hp with ⟨h0, _⟩ | ⟨_, q, hq, _, _, hs⟩
    · rw [h0, hempty] at hparsed
      cases hparsed
    · rw [hparsed] at hq
      cases hq
      exact hs
  · intro ha
    rw [haddr]
    simp [CommandLine.value, ha, defaultAddress]
  · intro hnone
    have hvalue : CommandLine.value parser.port = "" := by simp [CommandLine.value, hnone]
    rcases hp with ⟨_, hs⟩ | ⟨hne, _⟩
    · rw [hs]
      exact Int.toNat_of_nonneg hlo
    · exact absurd hvalue hne
  · intro ha hc
    rw [haddr]
    simp [CommandLine.value, ha, hc, defaultAddress]
  · intro hnone hc
    have hvalue : CommandLine.value parser.port = "" := by simp [CommandLine.value, hnone]
    rcases hp with ⟨_, hs⟩ | ⟨hne, _⟩
    · rw [hs, hc]
      rfl
    · exact absurd hvalue hne

/-- C3, witness: `--config /etc/auth/full.toml --port 8443 --address ::1` on the
sample system, where the file says `127.0.0.1` and 8080. -/
theorem address_and_port_precedence_witness :
    (Configuration.Configuration sampleEnv
        ⟨some "/etc/auth/full.toml", some "8443", some "::1", none, none⟩
        (State.start sampleFS)).2.self.address = "::1" ∧
      (Configuration.Configuration sampleEnv
        ⟨some "/etc/auth/full.toml", some "8443", some "::1", none, none⟩
        (State.start sampleFS)).2.self.port = 8443 := by
  obtain ⟨_, _, _, _, _, _, _, _, _, haddr, hp, _⟩ :=
    address_and_port_precedence sampleEnv
      ⟨some "/etc/auth/full.toml", some "8443", some "::1", none, none⟩
      (State.start sampleFS) _ (eta_run _ () (by decide!))
  exact ⟨haddr "::1" rfl (by decide), hp "8443" 8443 rfl (by decide) (by decide) (by decide)⟩

/-- C4: when exactly one of `--private-key` and `--public-key` has a non-empty
value, the constructor fails with exit code 1, and at that point it has
touched neither the file system nor the trace: no key file was read or
generated and no configuration file was loaded. -/
theorem single_key_option_fails (env : Env) (parser : CommandLine) (s : State)
    (h : (CommandLine.value parser.privateKey ≠ "" ∧ CommandLine.value parser.publicKey = "") ∨
      (CommandLine.value parser.privateKey = "" ∧ CommandLine.value parser.publicKey ≠ "")) :
    ∃ message s1, Configuration.Configuration env parser s =
        (Outcome.fail (Failure.exit 1 message), s1) ∧
      s1.fs = s.fs ∧ s1.log = s.log := by
  rcases addressAndPortOptions_cases parser { s with self := ⟨"", 0, "", "", []⟩ } with
    ⟨sa, ha, hfs, hlog⟩ | ⟨message, s1, hfail, hfs, hlog⟩
  · have hk : ∃ message, keyOptions env parser sa =
        (Outcome.fail (Failure.exit 1 message), sa) := by
      rw [keyOptions_eq]
      rcases h with ⟨h1, h2⟩ | ⟨h1, h2⟩
      · simp only [h1, h2, ne_eq, not_true_eq_false, not_false_eq_true, and_self, and_false,
          if_true, if_false]
        exact ⟨_, rfl⟩
      · simp only [h1, h2, ne_eq, not_false_eq_true, and_self, if_true]
        exact ⟨_, rfl⟩
    obtain ⟨message, hk⟩ := hk
    exact ⟨message, sa, Configuration_fail_keys ha hk, hfs, hlog⟩
  · exact ⟨message, s1, Configuration_fail_options hfail, hfs, hlog⟩

/-- C4, witness: `--private-key /keys/b.pem` alone on the sample system. -/
theorem single_key_option_fails_witness :
    ∃ message s1, Configuration.Configuration sampleEnv
        ⟨none, none, none, some "/keys/b.pem", none⟩ (State.start sampleFS) =
        (Outcome.fail (Failure.exit 1 message), s1) ∧
      s1.fs = sampleFS ∧ s1.log = [] :=
  single_key_option_fails sampleEnv ⟨none, none, none, some "/keys/b.pem", none⟩
    (State.start sampleFS) (Or.inl ⟨by decide, by decide⟩)

/-- C5, the code at the failing input: `--private-key "a.pem -noout"
--public-key "a.pub -noout"`, where `a.pem` and `a.pub` hold a key pair and the
two files named on the command line are empty.  Key resolution on the two
paths succeeds, because the unquoted names make the two validity checks look
at `a.pem` and `a.pub` and the comparison sees two empty outputs.  Both texts
read are empty, so loading the configuration file calls `readKeys` again, on
the default key paths, and the resolved keys are those of the default files,
not the texts read from the paths of the command line. -/
theorem cli_keys_replaced_by_default_keys :
    (readKeys sampleEnv "a.pem -noout" "a.pub -noout" (State.start optionNameFS)).1 =
        Outcome.ok () ∧
      FS.text optionNameFS "a.pem -noout" = "" ∧ FS.text optionNameFS "a.pub -noout" = "" ∧
      (Configuration.Configuration sampleEnv
        ⟨none, none, none, some "a.pem -noout", some "a.pub -noout"⟩
        (State.start optionNameFS)).1 = Outcome.ok () ∧
      (Configuration.Configuration sampleEnv
        ⟨none, none, none, some "a.pem -noout", some "a.pub -noout"⟩
        (State.start optionNameFS)).2.self.privateKey = "PRIVATE A" ∧
      (Configuration.Configuration sampleEnv
        ⟨none, none, none, some "a.pem -noout", some "a.pub -noout"⟩
        (State.start optionNameFS)).2.self.publicKey = "PUBLIC A" ∧
      calls "readKeys" (Configuration.Configuration sampleEnv
        ⟨none, none, none, some "a.pem -noout", some "a.pub -noout"⟩
        (State.start optionNameFS)).2.log =
        [["a.pem -noout", "a.pub -noout"],
         ["/usr/share/pruefungsplaner-auth/keys/private_key.pem",
          "/usr/share/pruefungsplaner-auth/keys/public_key.pem"]] ∧
      Event.system "openssl rsa -in a.pem -noout -check -noout >/dev/null 2>&1" ∈
        (Configuration.Configuration sampleEnv
          ⟨none, none, none, some "a.pem -noout", some "a.pub -noout"⟩
          (State.start optionNameFS)).2.log := by
  refine ⟨by decide!, by decide!, by decide!, by decide!, by decide!, by decide!, by decide!,
    by decide!⟩

/-- C6, the code at the failing input: the private key of pair `B` and the
public key of pair `A`, both in the directory `my keys`.  Under names without
a blank the same two texts pass their own checks and `readKeys` fails with the
pairing message.  Under `my keys/` the command line of the private key check
reaches the shell with the name in two words, the check fails, and `readKeys`
stops there with "Private key file is invalid", before the pairing check. -/
theorem mismatched_pair_under_blank_name :
    FS.find blankNameFS "my keys/b.pem" = some ⟨"PRIVATE B", true, true⟩ ∧
      FS.find blankNameFS "my keys/a.pub" = some ⟨"PUBLIC A", true, true⟩ ∧
      (readKeys sampleEnv "/keys/b.pem" "/usr/share/pruefungsplaner-auth/keys/public_key.pem"
        (State.start sampleFS)).1 =
        Outcome.fail (Failure.exit 1 "The public key seems not to belong to the private key.") ∧
      (readKeys sampleEnv "my keys/b.pem" "my keys/a.pub" (State.start blankNameFS)).1 =
        Outcome.fail (Failure.exit 1
          ("Private key file is invalid (Code " ++ QString.ofInteger 256 ++ ").")) ∧
      (readKeys sampleEnv "my keys/b.pem" "my keys/a.pub" (State.start blankNameFS)).2.log =
        [Event.enter "readKeys" ["my keys/b.pem", "my keys/a.pub"],
         Event.fileExists "my keys/b.pem",
         Event.enter "checkPrivateKey" ["my keys/b.pem"],
         Event.fileExists "my keys/b.pem",
         Event.fileOpen "my keys/b.pem" OpenMode.readOnly,
         Event.system "openssl rsa -in my keys/b.pem -check -noout >/dev/null 2>&1"] := by
  refine ⟨by decide!, by decide!, by decide!, by decide!, by decide!⟩

/-- What `readKeys` does itself for an existing private key: with the private
key file in place it does not call `generatePrivateKey`, whatever the tools
do. -/
theorem readKeys_skips_generation (env : Env) (priv pub : String) (s : State) (f : File)
    (h : s.fs.find priv = some f) :
    wp (readKeys env priv pub)
      (fun _ s1 => calls "generatePrivateKey" s1.log = calls "generatePrivateKey" s.log)
      (fun _ s1 => calls "generatePrivateKey" s1.log = calls "generatePrivateKey" s.log) s := by
  simp only [readKeys, generatePrivateKey, checkPrivateKey, generatePublicKey, checkPublicKey,
    checkKeysAreMatching, wp_bind, wp_pure, wp_ite, wp_record, wp_fileExists, wp_fileOpen_readOnly,
    wp_fileOpen_readOnlyText, wp_fileOpen_writeOnly, wp_system, wp_readAll, wp_modifySelf,
    wp_failConfiguration]
  simp [h, calls_append, calls]

/-- C7, the code at the failing input: the private key file `b.pem` exists and
the public key path is `o>b.pem`, which does not exist.  `readKeys` does not
call `generatePrivateKey`, but it hands the shell the command line
`openssl rsa -pubout -in b.pem -out o>b.pem`, in which the name is a file and
a redirection: the private key file is empty afterwards. -/
theorem private_key_truncated_by_public_name :
    FS.text redirectFS "b.pem" = "PRIVATE A" ∧
      FS.find redirectFS "o>b.pem" = none ∧
      (readKeys sampleEnv "b.pem" "o>b.pem" (State.start redirectFS)).1 =
        Outcome.fail (Failure.exit 1
          ("Failed to generate public key (Code " ++ QString.ofInteger 256 ++ ").")) ∧
      FS.text (readKeys sampleEnv "b.pem" "o>b.pem" (State.start redirectFS)).2.fs "b.pem" = "" ∧
      calls "generatePrivateKey"
        (readKeys sampleEnv "b.pem" "o>b.pem" (State.start redirectFS)).2.log = [] ∧
      (readKeys sampleEnv "b.pem" "o>b.pem" (State.start redirectFS)).2.log.getLast? =
        some (Event.system "openssl rsa -pubout -in b.pem -out o>b.pem") := by
  refine ⟨by decide!, by decide!, by decide!, by decide!, by decide!, by decide!⟩

/-- C8: the final validation fails exactly when the port is 0, or
`QHostAddress::setAddress` rejects the address, or the private key text is
empty, or the public key text is empty.  The message is that of the first
check that fails, in the order port, address, private key, public key, and the
state is left as it was.  With all four in order the validation succeeds; an
empty list of users adds a warning to the trace and nothing else.  Hence every
configuration the constructor resolves has a port from 1 to 65535, an address
the library accepts, and non-empty key texts. -/
theorem checkConfiguration_first_failing_check (env : Env) (s : State) :
    ((∃ e s1, checkConfiguration env s = (Outcome.fail e, s1)) ↔
      (s.self.port = 0 ∨ env.setAddress s.self.address = false ∨
        s.self.privateKey = "" ∨ s.self.publicKey = "")) ∧
    (s.self.port = 0 →
      checkConfiguration env s =
        (Outcome.fail (Failure.exit 1 "You specified the only invalid port, which is 0."), s)) ∧
    (s.self.port ≠ 0 → env.setAddress s.self.address = false →
      checkConfiguration env s =
        (Outcome.fail (Failure.exit 1
          ("The address " ++ s.self.address ++ " seems to be invalid.")), s)) ∧
    (s.self.port ≠ 0 → env.setAddress s.self.address = true → s.self.privateKey = "" →
      checkConfiguration env s =
        (Outcome.fail (Failure.exit 1 "No private key specified."), s)) ∧
    (s.self.port ≠ 0 → env.setAddress s.self.address = true → s.self.privateKey ≠ "" →
      s.self.publicKey = "" →
      checkConfiguration env s =
        (Outcome.fail (Failure.exit 1 "No public key specified."), s)) ∧
    (s.self.port ≠ 0 → env.setAddress s.self.address = true → s.self.privateKey ≠ "" →
      s.self.publicKey ≠ "" → s.self.users = [] →
      checkConfiguration env s =
        (Outcome.ok (), { s with log := s.log ++
          [Event.debug "There are no users in your configuration."] })) ∧
    (s.self.port ≠ 0 → env.setAddress s.self.address = true → s.self.privateKey ≠ "" →
      s.self.publicKey ≠ "" → s.self.users ≠ [] →
      checkConfiguration env s = (Outcome.ok (), s)) ∧
    (∀ parser s0 s1, Configuration.Configuration env parser s0 = (Outcome.ok (), s1) →
      1 ≤ s1.self.port ∧ s1.self.port ≤ 65535 ∧ env.setAddress s1.self.address = true ∧
        s1.self.privateKey ≠ "" ∧ s1.self.publicKey ≠ "") := by
  refine ⟨?_, ?_, ?_, ?_, ?_, ?_, ?_, ?_⟩
  · rw [checkConfiguration_eq]
    by_cases h1 : s.self.port = 0
    · simp [h1]
    · by_cases h2 : env.setAddress s.self.address = false
      · simp [h1, h2]
      · by_cases h3 : s.self.privateKey = ""
        · simp [h1, h2, h3]
        · by_cases h4 : s.self.publicKey = ""
          · simp [h1, h2, h3, h4]
          · by_cases h5 : s.self.users = [] <;> simp [h1, h2, h3, h4, h5]
  · intro h1
    rw [checkConfiguration_eq]; simp [h1]
  · intro h1 h2
    rw [checkConfiguration_eq]; simp [h1, h2]
  · intro h1 h2 h3
    rw [checkConfiguration_eq]; simp [h1, h2, h3]
  · intro h1 h2 h3 h4
    rw [checkConfiguration_eq]; simp [h1, h2, h3, h4]
  · intro h1 h2 h3 h4 h5
    rw [checkConfiguration_eq]; simp [h1, h2, h3, h4, h5]
  · intro h1 h2 h3 h4 h5
    rw [checkConfiguration_eq]; simp [h1, h2, h3, h4, h5]
  · intro parser s0 s1 hrun
    obtain ⟨_, config, _, _, _, _, _, _, _, hlo, hhi, _, hp, h0, haddr, hpriv, hpub⟩ :=
      Configuration_ok hrun
    refine ⟨by omega, ?_, haddr, hpriv, hpub⟩
    rcases hp with ⟨_, hs⟩ | ⟨_, p, _, _, hle, hs⟩
    · rw [hs]; omega
    · rw [hs]; exact hle

/-- C8, witness: on the sample system the default start resolves port 80, and
a state with port 0 and an invalid address is rejected for its port. -/
theorem checkConfiguration_first_failing_check_witness :
    checkConfiguration sampleEnv ⟨⟨"nowhere", 0, "", "", []⟩, [], []⟩ =
        (Outcome.fail (Failure.exit 1 "You specified the only invalid port, which is 0."),
          ⟨⟨"nowhere", 0, "", "", []⟩, [], []⟩) ∧
      checkConfiguration sampleEnv ⟨⟨"::1", 80, "PRIVATE A", "PUBLIC A", []⟩, [], []⟩ =
        (Outcome.ok (), ⟨⟨"::1", 80, "PRIVATE A", "PUBLIC A", []⟩, [],
          [Event.debug "There are no users in your configuration."]⟩) :=
  ⟨(checkConfiguration_first_failing_check sampleEnv ⟨⟨"nowhere", 0, "", "", []⟩, [], []⟩).2.1
      rfl,
   (checkConfiguration_first_failing_check sampleEnv
      ⟨⟨"::1", 80, "PRIVATE A", "PUBLIC A", []⟩, [], []⟩).2.2.2.2.2.1
      (by decide) (by decide) (by decide) (by decide) rfl⟩

/-- C9, the code at the failing inputs: with `--private-key` alone the message
asks for a private key file, and with `--public-key` alone it asks for a
public key file.  The two messages are swapped. -/
theorem single_key_messages_swapped (env : Env) (fs : FS) :
    Configuration.Configuration env ⟨none, none, none, some "private.pem", none⟩
        (State.start fs) =
      (Outcome.fail (Failure.exit 1
        "If you specify a public key file, you also have to specify a private key file"),
        State.start fs) ∧
    Configuration.Configuration env ⟨none, none, none, none, some "public.pem"⟩
        (State.start fs) =
      (Outcome.fail (Failure.exit 1
        "If you specify a private key file, you also have to specify a public key file"),
        State.start fs) := by
  constructor
  · have ha : addressAndPortOptions ⟨none, none, none, some "private.pem", none⟩
        { State.start fs with self := ⟨"", 0, "", "", []⟩ } =
        (Outcome.ok (), State.start fs) := by
      rw [addressAndPortOptions_eq]; rfl
    refine Configuration_fail_keys ha ?_
    rw [keyOptions_eq]
    have h1 : CommandLine.value (some "private.pem") ≠ "" := by decide
    simp [h1, CommandLine.value]
  · have ha : addressAndPortOptions ⟨none, none, none, none, some "public.pem"⟩
        { State.start fs with self := ⟨"", 0, "", "", []⟩ } =
        (Outcome.ok (), State.start fs) := by
      rw [addressAndPortOptions_eq]; rfl
    refine Configuration_fail_keys ha ?_
    rw [keyOptions_eq]
    have h1 : CommandLine.value (some "public.pem") ≠ "" := by decide
    simp [h1, CommandLine.value]

/-- C10, the code at the failing inputs: for `--port 0` and `--port 70000` the
message does not show the number.  `QString(portInt)` is the string of the one
character with code `portInt` modulo `2^16`, U+0000 for 0 and U+1170 for
70000. -/
theorem port_out_of_range_message (env : Env) (fs : FS) :
    (Configuration.Configuration env ⟨none, some "0", none, none, none⟩ (State.start fs)).1 =
      Outcome.fail (Failure.exit 1
        ("Port " ++ String.singleton (Char.ofNat 0) ++ " is out of range (1-65535).")) ∧
    (Configuration.Configuration env ⟨none, some "70000", none, none, none⟩ (State.start fs)).1 =
      Outcome.fail (Failure.exit 1
        ("Port " ++ String.singleton (Char.ofNat 0x1170) ++ " is out of range (1-65535).")) ∧
    "Port " ++ String.singleton (Char.ofNat 0) ++ " is out of range (1-65535)." ≠
      "Port 0 is out of range (1-65535)." ∧
    "Port " ++ String.singleton (Char.ofNat 0x1170) ++ " is out of range (1-65535)." ≠
      "Port 70000 is out of range (1-65535)." ∧
    (Configuration.Configuration env ⟨none, some "http", none, none, none⟩ (State.start fs)).1 =
      Outcome.fail (Failure.exit 1 "Port http is not a number.") := by
  refine ⟨?_, ?_, by decide, by decide, ?_⟩
  · have h : addressAndPortOptions ⟨none, some "0", none, none, none⟩
        { State.start fs with self := ⟨"", 0, "", "", []⟩ } =
        (Outcome.fail (Failure.exit 1
          ("Port " ++ String.singleton (Char.ofNat 0) ++ " is out of range (1-65535).")),
          State.start fs) := by
      rw [addressAndPortOptions_eq]
      have hz : toUInt (CommandLine.value (some "0")) = some 0 := by decide
      have hs : CommandLine.value (some "0") ≠ "" := by decide
      simp only [hs, if_false, hz]
      rfl
    rw [Configuration_fail_options h]
  · have h : addressAndPortOptions ⟨none, some "70000", none, none, none⟩
        { State.start fs with self := ⟨"", 0, "", "", []⟩ } =
        (Outcome.fail (Failure.exit 1
          ("Port " ++ String.singleton (Char.ofNat 0x1170) ++ " is out of range (1-65535).")),
          State.start fs) := by
      rw [addressAndPortOptions_eq]
      have hz : toUInt (CommandLine.value (some "70000")) = some 70000 := by decide
      have hs : CommandLine.value (some "70000") ≠ "" := by decide
      simp only [hs, if_false, hz]
      rfl
    rw [Configuration_fail_options h]
  · have h : addressAndPortOptions ⟨none, some "http", none, none, none⟩
        { State.start fs with self := ⟨"", 0, "", "", []⟩ } =
        (Outcome.fail (Failure.exit 1 "Port http is not a number."), State.start fs) := by
      rw [addressAndPortOptions_eq]
      have hz : toUInt (CommandLine.value (some "http")) = none := by decide
      have hs : CommandLine.value (some "http") ≠ "" := by decide
      simp only [hs, if_false, hz]
      rfl
    rw [Configuration_fail_options h]

end Auth
